import Mathlib

/-!
# Storefront derivation engine: filter and sort, cart aggregation, cart store

A shallow embedding of `applyFilters` of
`src/frontend/src/component/ShopPage.js` (lines 27-84) together with the
JavaScript built-ins it calls, and the properties the specification states
about it.  `applyFilters` works on products typed as the data model types
them; `applyFiltersChecked` follows the same lines on records whose fields
may be missing and records the exception a method call on a missing field
raises.  The second part embeds the cart aggregation of `CartPage.js` and
`App.js` (line items, subtotal, totals, item count) and the cart store of
`App.js` with the handlers of the pages that call it, as functions on an
explicit state that records the requests sent and the responses received.
The third part covers the start of a session, the newsletter form of
`HomePage.js`, the discount badge and the related products of
`ProductPage.js`.

Conventions of the embedding.

* A JavaScript number that comes out of JSON is a finite double; its value is
  a rational, so product prices and ratings are `ℚ`.  The sign of the
  floating-point difference of two finite doubles is the sign of their exact
  difference, which is all a sort comparator is read for.
* `parseFloat` can also return `NaN` and the infinities, so its result has
  the type `JSNumber`.
* `created_at` is carried as the time value (milliseconds since the epoch)
  that `new Date(product.created_at)` yields.
* Text is `String`.  `toLowerCase` and `toUpperCase` are the case mappings on
  Basic Latin and Latin-1 Supplement; what a property of the search needs of
  the case mapping is proved for every mapping (`applyFiltersWith`).
-/

namespace Storefront

/-! ## Data model -/

/-- One product of the catalogue, as returned by `GET /api/products`. -/
structure Product where
  id : String
  name : String
  description : String
  short_description : String
  category : String
  skin_types : List String
  price : ℚ
  original_price : Option ℚ
  rating : ℚ
  review_count : Nat
  is_featured : Bool
  is_new : Bool
  is_viral : Bool
  created_at : Int
  deriving DecidableEq

/-- The `filters` state of `ShopPage` (lines 12-18): five strings, the empty
string meaning that the criterion is not set. -/
structure Filters where
  category : String
  skinType : String
  minPrice : String
  maxPrice : String
  search : String
  deriving DecidableEq

/-- The value of a JavaScript number as far as `applyFilters` can see it. -/
inductive JSNumber where
  | nan
  | negInf
  | posInf
  | fin (q : ℚ)
  deriving DecidableEq

/-! ## Built-ins of the language used by `applyFilters` -/

/-- The lowercase form of one character of Basic Latin or Latin-1
Supplement: `A`-`Z` and the capital letters U+00C0-U+00DE (the sign U+00D7
apart) move up by 32; every other character is left as it is. -/
def lowerChar (c : Char) : Char :=
  if (65 ≤ c.toNat ∧ c.toNat ≤ 90) ∨ (192 ≤ c.toNat ∧ c.toNat ≤ 222 ∧ c.toNat ≠ 215) then
    Char.ofNat (c.toNat + 32)
  else c

/-- `String.prototype.toLowerCase`, character by character with `lowerChar`.
It is the built-in on text of Basic Latin and Latin-1 Supplement; the
built-in also maps letters outside these blocks and lowers a final capital
sigma by its position. -/
def toLowerCase (s : String) : String :=
  ⟨s.data.map lowerChar⟩

/-- The uppercase form of one character of Basic Latin or Latin-1
Supplement: `a`-`z` and the small letters U+00E0-U+00FE (the sign U+00F7
apart) move down by 32, the sharp s becomes `SS`, the micro sign becomes the
Greek capital mu and y with diaeresis its capital U+0178; every other
character is left as it is. -/
def upperChar (c : Char) : List Char :=
  if c.toNat = 223 then ['S', 'S']
  else if c.toNat = 181 then [Char.ofNat 924]
  else if c.toNat = 255 then [Char.ofNat 376]
  else if (97 ≤ c.toNat ∧ c.toNat ≤ 122) ∨ (224 ≤ c.toNat ∧ c.toNat ≤ 254 ∧ c.toNat ≠ 247) then
    [Char.ofNat (c.toNat - 32)]
  else [c]

/-- `String.prototype.toUpperCase`, character by character with `upperChar`.
It is the built-in on text of Basic Latin and Latin-1 Supplement. -/
def toUpperCase (s : String) : String :=
  ⟨s.data.flatMap upperChar⟩

/-- `String.prototype.includes`: `t` occurs in `s` as a contiguous block. -/
def includes (s t : String) : Bool :=
  decide (t.data <:+: s.data)

/-- White space and line terminators removed by `parseFloat` before it reads
a literal (`TrimString`, start only). -/
def isTrimmed (c : Char) : Bool :=
  c.toNat ∈ [9, 10, 11, 12, 13, 32, 0xA0, 0x1680, 0x2028, 0x2029, 0x202F, 0x205F, 0x3000, 0xFEFF]
    || (0x2000 ≤ c.toNat && c.toNat ≤ 0x200A)

/-- Value of a block of decimal digits. -/
def digitsValue (ds : List Char) : Nat :=
  ds.foldl (fun n c => 10 * n + (c.toNat - 48)) 0

/-- The exponent part `e`/`E`, optional sign, digits; `0` when there is no
well-formed exponent part at the head of the input. -/
def exponentPart : List Char → Int
  | c :: rest =>
    if c = 'e' ∨ c = 'E' then
      match rest with
      | '+' :: ds =>
        if (ds.takeWhile Char.isDigit).isEmpty then 0
        else (digitsValue (ds.takeWhile Char.isDigit) : Int)
      | '-' :: ds =>
        if (ds.takeWhile Char.isDigit).isEmpty then 0
        else - (digitsValue (ds.takeWhile Char.isDigit) : Int)
      | ds =>
        if (ds.takeWhile Char.isDigit).isEmpty then 0
        else (digitsValue (ds.takeWhile Char.isDigit) : Int)
    else 0
  | [] => 0

/-- Scale a natural mantissa by a power of ten. -/
def scale10 (m : Nat) (e : Int) : ℚ :=
  if 0 ≤ e then (m : ℚ) * (10 : ℚ) ^ e.toNat else (m : ℚ) / (10 : ℚ) ^ (-e).toNat

/-- The longest head of the input that is a `StrUnsignedDecimalLiteral`
(digits, optional fraction, optional exponent, or `Infinity`), as a
non-negative value; `none` when there is no such head. -/
def unsignedLiteral (cs : List Char) : Option (Option ℚ) :=
  if "Infinity".data <+: cs then some none
  else
    let ip := cs.takeWhile Char.isDigit
    let r1 := cs.dropWhile Char.isDigit
    let fp := match r1 with
      | '.' :: r => r.takeWhile Char.isDigit
      | _ => []
    let r2 := match r1 with
      | '.' :: r => r.dropWhile Char.isDigit
      | _ => r1
    if ip.isEmpty && fp.isEmpty then none
    else some (some (scale10 (digitsValue (ip ++ fp)) (exponentPart r2 - fp.length)))

/-- The global `parseFloat`: leading white space is skipped, the longest
decimal literal at the head is read and what follows it is ignored; the
result is `NaN` when no literal is found.  The literal's exact decimal value
is returned. -/
def parseFloat (s : String) : JSNumber :=
  match s.data.dropWhile isTrimmed with
  | '-' :: cs =>
    match unsignedLiteral cs with
    | none => JSNumber.nan
    | some none => JSNumber.negInf
    | some (some q) => JSNumber.fin (-q)
  | '+' :: cs =>
    match unsignedLiteral cs with
    | none => JSNumber.nan
    | some none => JSNumber.posInf
    | some (some q) => JSNumber.fin q
  | cs =>
    match unsignedLiteral cs with
    | none => JSNumber.nan
    | some none => JSNumber.posInf
    | some (some q) => JSNumber.fin q

/-- The comparison `x >= y` for a finite `x`: false against `NaN`. -/
def JSNumber.geOf (x : ℚ) : JSNumber → Bool
  | JSNumber.nan => false
  | JSNumber.negInf => true
  | JSNumber.posInf => false
  | JSNumber.fin q => decide (q ≤ x)

/-- The comparison `x <= y` for a finite `x`: false against `NaN`. -/
def JSNumber.leOf (x : ℚ) : JSNumber → Bool
  | JSNumber.nan => false
  | JSNumber.negInf => false
  | JSNumber.posInf => true
  | JSNumber.fin q => decide (x ≤ q)

/-- One step of the sort: `x` goes in front of the first element it does not
compare greater than. -/
def insertBy {α : Type} (compareFn : α → α → ℚ) (x : α) : List α → List α
  | [] => [x]
  | y :: ys => if compareFn x y ≤ 0 then x :: y :: ys else y :: insertBy compareFn x ys

/-- `Array.prototype.sort(compareFn)`: a stable sort (required since
ECMAScript 2019) reading only the sign of `compareFn`.  On a consistent
comparator the result of a stable sort is unique, so the algorithm chosen
here (insertion from the right) yields what any conforming engine yields. -/
def sort {α : Type} (compareFn : α → α → ℚ) : List α → List α
  | [] => []
  | x :: xs => insertBy compareFn x (sort compareFn xs)

/-! ## `applyFilters` -/

/-- The search predicate of lines 32-36. -/
def searchMatches (search : String) (product : Product) : Bool :=
  includes (toLowerCase product.name) (toLowerCase search) ||
  includes (toLowerCase product.description) (toLowerCase search) ||
  includes (toLowerCase product.short_description) (toLowerCase search)

/-- The comparator of the `featured` and `default` branch (lines 75-79). -/
def featuredCompare (a b : Product) : ℚ :=
  if a.is_featured && !b.is_featured then -1
  else if !a.is_featured && b.is_featured then 1
  else b.rating - a.rating

/-- Lines 28-57: the chain of filters, each applied only when its criterion
is a non-empty string. -/
def filterProducts (products : List Product) (filters : Filters) : List Product :=
  let filtered := products
  let filtered :=
    if filters.search ≠ "" then filtered.filter (fun product => searchMatches filters.search product)
    else filtered
  let filtered :=
    if filters.category ≠ "" then filtered.filter (fun product => product.category == filters.category)
    else filtered
  let filtered :=
    if filters.skinType ≠ "" then filtered.filter (fun product => product.skin_types.contains filters.skinType)
    else filtered
  let filtered :=
    if filters.minPrice ≠ "" then
      filtered.filter (fun product => JSNumber.geOf product.price (parseFloat filters.minPrice))
    else filtered
  let filtered :=
    if filters.maxPrice ≠ "" then
      filtered.filter (fun product => JSNumber.leOf product.price (parseFloat filters.maxPrice))
    else filtered
  filtered

/-- Lines 60-81: the `switch` on `sortBy`. -/
def sortProducts (filtered : List Product) (sortBy : String) : List Product :=
  match sortBy with
  | "price-low" => sort (fun a b => a.price - b.price) filtered
  | "price-high" => sort (fun a b => b.price - a.price) filtered
  | "rating" => sort (fun a b => b.rating - a.rating) filtered
  | "newest" => sort (fun a b => ((b.created_at - a.created_at : Int) : ℚ)) filtered
  | _ => sort featuredCompare filtered

/-- `applyFilters` of `ShopPage`: the list handed to `setFilteredProducts`. -/
def applyFilters (products : List Product) (filters : Filters) (sortBy : String) : List Product :=
  sortProducts (filterProducts products filters) sortBy

/-! ## `applyFilters` with the case mapping left open

`String.prototype.toLowerCase` follows the case tables of Unicode, which are
not part of the repository.  The definitions below are the same lines of the
source with the lowercase mapping as the parameter `lower`; `searchMatches`,
`filterProducts` and `applyFilters` are these at `toLowerCase`. -/

/-- The search predicate of lines 32-36 for the lowercase mapping `lower`. -/
def searchMatchesWith (lower : String → String) (search : String) (product : Product) : Bool :=
  includes (lower product.name) (lower search) ||
  includes (lower product.description) (lower search) ||
  includes (lower product.short_description) (lower search)

/-- Lines 28-57 for the lowercase mapping `lower`. -/
def filterProductsWith (lower : String → String) (products : List Product) (filters : Filters) :
    List Product :=
  let filtered := products
  let filtered :=
    if filters.search ≠ "" then
      filtered.filter (fun product => searchMatchesWith lower filters.search product)
    else filtered
  let filtered :=
    if filters.category ≠ "" then filtered.filter (fun product => product.category == filters.category)
    else filtered
  let filtered :=
    if filters.skinType ≠ "" then filtered.filter (fun product => product.skin_types.contains filters.skinType)
    else filtered
  let filtered :=
    if filters.minPrice ≠ "" then
      filtered.filter (fun product => JSNumber.geOf product.price (parseFloat filters.minPrice))
    else filtered
  let filtered :=
    if filters.maxPrice ≠ "" then
      filtered.filter (fun product => JSNumber.leOf product.price (parseFloat filters.maxPrice))
    else filtered
  filtered

/-- `applyFilters` for the lowercase mapping `lower`. -/
def applyFiltersWith (lower : String → String) (products : List Product) (filters : Filters)
    (sortBy : String) : List Product :=
  sortProducts (filterProductsWith lower products filters) sortBy

/-- The criteria as one predicate, for the lowercase mapping `lower`. -/
def matchesCriteriaWith (lower : String → String) (filters : Filters) (product : Product) : Bool :=
  (filters.search == "" || searchMatchesWith lower filters.search product) &&
  (filters.category == "" || product.category == filters.category) &&
  (filters.skinType == "" || product.skin_types.contains filters.skinType) &&
  (filters.minPrice == "" || JSNumber.geOf product.price (parseFloat filters.minPrice)) &&
  (filters.maxPrice == "" || JSNumber.leOf product.price (parseFloat filters.maxPrice))

/-! ## `applyFilters` over records whose fields may be missing

The only operations of `applyFilters` that can throw are the method calls
`.toLowerCase()` on the three text fields and `.includes()` on `skin_types`:
they raise a `TypeError` when the field is `undefined` or `null`.  The
definitions below follow the same lines of the source over records in which
these four fields are optional, and return the fault instead of a list when
one is raised. -/

/-- A product record in which the four fields that `applyFilters` calls a
method on may be missing. -/
structure ProductRecord where
  id : String
  name : Option String
  description : Option String
  short_description : Option String
  category : String
  skin_types : Option (List String)
  price : ℚ
  original_price : Option ℚ
  rating : ℚ
  review_count : Nat
  is_featured : Bool
  is_new : Bool
  is_viral : Bool
  created_at : Int
  deriving DecidableEq

/-- The exception a method call on `undefined` or `null` raises. -/
inductive Fault where
  | typeError
  deriving DecidableEq

/-- The record of a product that carries all its fields. -/
def Product.toRecord (p : Product) : ProductRecord :=
  { id := p.id, name := some p.name, description := some p.description,
    short_description := some p.short_description, category := p.category,
    skin_types := some p.skin_types, price := p.price, original_price := p.original_price,
    rating := p.rating, review_count := p.review_count, is_featured := p.is_featured,
    is_new := p.is_new, is_viral := p.is_viral, created_at := p.created_at }

/-- `field.toLowerCase().includes(search.toLowerCase())` on a field that may
be missing. -/
def fieldIncludes (field : Option String) (search : String) : Except Fault Bool :=
  match field with
  | none => Except.error Fault.typeError
  | some s => Except.ok (includes (toLowerCase s) (toLowerCase search))

/-- The search predicate of lines 32-36 with the left-to-right evaluation of
`||`: a later field is read only when the earlier ones did not match. -/
def searchMatchesChecked (search : String) (r : ProductRecord) : Except Fault Bool :=
  match fieldIncludes r.name search with
  | Except.error e => Except.error e
  | Except.ok true => Except.ok true
  | Except.ok false =>
    match fieldIncludes r.description search with
    | Except.error e => Except.error e
    | Except.ok true => Except.ok true
    | Except.ok false => fieldIncludes r.short_description search

/-- The predicate of lines 46-48 on a record. -/
def skinTypeMatchesChecked (skinType : String) (r : ProductRecord) : Except Fault Bool :=
  match r.skin_types with
  | none => Except.error Fault.typeError
  | some ts => Except.ok (ts.contains skinType)

/-- `Array.prototype.filter` with a callback that may throw: the elements are
visited in order and the first exception ends the call. -/
def filterChecked {α : Type} (q : α → Except Fault Bool) : List α → Except Fault (List α)
  | [] => Except.ok []
  | x :: xs =>
    match q x with
    | Except.error e => Except.error e
    | Except.ok b =>
      match filterChecked q xs with
      | Except.error e => Except.error e
      | Except.ok ys => Except.ok (if b then x :: ys else ys)

/-- The comparator of the `featured` branch on records. -/
def featuredCompareRecord (a b : ProductRecord) : ℚ :=
  if a.is_featured && !b.is_featured then -1
  else if !a.is_featured && b.is_featured then 1
  else b.rating - a.rating

/-- Lines 60-81 on records; no comparator calls a method, so none can throw. -/
def sortRecords (filtered : List ProductRecord) (sortBy : String) : List ProductRecord :=
  match sortBy with
  | "price-low" => sort (fun a b => a.price - b.price) filtered
  | "price-high" => sort (fun a b => b.price - a.price) filtered
  | "rating" => sort (fun a b => b.rating - a.rating) filtered
  | "newest" => sort (fun a b => ((b.created_at - a.created_at : Int) : ℚ)) filtered
  | _ => sort featuredCompareRecord filtered

/-- `applyFilters` on records: the list handed to `setFilteredProducts`, or
the fault that ends the call. -/
def applyFiltersChecked (products : List ProductRecord) (filters : Filters) (sortBy : String) :
    Except Fault (List ProductRecord) :=
  let filtered : Except Fault (List ProductRecord) := Except.ok products
  let filtered :=
    if filters.search ≠ "" then filtered.bind (filterChecked (searchMatchesChecked filters.search))
    else filtered
  let filtered :=
    if filters.category ≠ "" then
      filtered.bind (filterChecked (fun product => Except.ok (product.category == filters.category)))
    else filtered
  let filtered :=
    if filters.skinType ≠ "" then
      filtered.bind (filterChecked (skinTypeMatchesChecked filters.skinType))
    else filtered
  let filtered :=
    if filters.minPrice ≠ "" then
      filtered.bind (filterChecked (fun product =>
        Except.ok (JSNumber.geOf product.price (parseFloat filters.minPrice))))
    else filtered
  let filtered :=
    if filters.maxPrice ≠ "" then
      filtered.bind (filterChecked (fun product =>
        Except.ok (JSNumber.leOf product.price (parseFloat filters.maxPrice))))
    else filtered
  filtered.map (fun l => sortRecords l sortBy)

/-- A record is complete when the four optional fields are present. -/
def ProductRecord.complete (r : ProductRecord) : Bool :=
  r.name.isSome && r.description.isSome && r.short_description.isSome && r.skin_types.isSome

/-- The product a record stands for (a missing field read as empty). -/
def ProductRecord.toProduct (r : ProductRecord) : Product :=
  { id := r.id, name := r.name.getD "", description := r.description.getD "",
    short_description := r.short_description.getD "", category := r.category,
    skin_types := r.skin_types.getD [], price := r.price, original_price := r.original_price,
    rating := r.rating, review_count := r.review_count, is_featured := r.is_featured,
    is_new := r.is_new, is_viral := r.is_viral, created_at := r.created_at }

/-! ## Predicates in which the properties are stated -/

/-- A product matches the criteria when it matches every criterion that is
set: search text found, category equal, skin type among the product's skin
types, price not below the lower bound and not above the upper bound (both
comparisons as JavaScript makes them). -/
def matchesCriteria (filters : Filters) (product : Product) : Bool :=
  (filters.search == "" || searchMatches filters.search product) &&
  (filters.category == "" || product.category == filters.category) &&
  (filters.skinType == "" || product.skin_types.contains filters.skinType) &&
  (filters.minPrice == "" || JSNumber.geOf product.price (parseFloat filters.minPrice)) &&
  (filters.maxPrice == "" || JSNumber.leOf product.price (parseFloat filters.maxPrice))

/-- A comparator is consistent when "not greater" is total and transitive. -/
def Consistent {α : Type} (compareFn : α → α → ℚ) : Prop :=
  (∀ a b, compareFn a b ≤ 0 ∨ compareFn b a ≤ 0) ∧
  (∀ a b c, compareFn a b ≤ 0 → compareFn b c ≤ 0 → compareFn a c ≤ 0)

/-- The sorted list keeps, among the elements that tie on `key`, the order
the filtered list gives them: for each key value the elements carrying it
form the same sequence in both lists, and two tying elements occur in one
order in the sorted list exactly when they occur in that order in the
filtered list. -/
def KeepsTieOrder {κ : Type} [DecidableEq κ] (key : Product → κ)
    (filtered sorted : List Product) : Prop :=
  (∀ v, sorted.filter (fun p => decide (key p = v)) = filtered.filter (fun p => decide (key p = v))) ∧
  (∀ a b, key a = key b → ([a, b].Sublist sorted ↔ [a, b].Sublist filtered))

/-- The search predicate as the specification words it: the lowercased search
text is looked for in the lowercased concatenation of name, description and
short description. -/
def searchMatchesConcat (search : String) (product : Product) : Bool :=
  includes (toLowerCase (product.name ++ product.description ++ product.short_description))
    (toLowerCase search)

/-! ## Sample data of the scenarios -/

/-- The criteria with nothing set. -/
def noFilters : Filters :=
  { category := "", skinType := "", minPrice := "", maxPrice := "", search := "" }

/-- A product with the given id, featured flag and rating, the other fields
fixed. -/
def sampleProduct (id : String) (featured : Bool) (rating : ℚ) : Product :=
  { id := id, name := id, description := "", short_description := "",
    category := "skincare", skin_types := [], price := 10, original_price := none,
    rating := rating, review_count := 0, is_featured := featured, is_new := false,
    is_viral := false, created_at := 0 }

/-- The criteria of the price scenario: category lips, prices from 5 to 15. -/
def lipsFilters : Filters :=
  { category := "lips", skinType := "", minPrice := "5", maxPrice := "15", search := "" }

/-- A product with the given id, category and price, the other fields fixed. -/
def pricedProduct (id category : String) (price : ℚ) : Product :=
  { id := id, name := id, description := "", short_description := "",
    category := category, skin_types := [], price := price, original_price := none,
    rating := 4, review_count := 0, is_featured := false, is_new := false,
    is_viral := false, created_at := 0 }

/-- A product with the given three text fields, the other fields fixed. -/
def textProduct (name description short_description : String) : Product :=
  { id := "t", name := name, description := description,
    short_description := short_description, category := "skincare", skin_types := [],
    price := 10, original_price := none, rating := 4, review_count := 0,
    is_featured := false, is_new := false, is_viral := false, created_at := 0 }

/-- The criteria with only the search text set. -/
def searchFilters (search : String) : Filters :=
  { category := "", skinType := "", minPrice := "", maxPrice := "", search := search }

/-- A record whose name is missing. -/
def namelessRecord : ProductRecord :=
  { id := "n", name := none, description := some "cream", short_description := some "",
    category := "skincare", skin_types := some [], price := 10, original_price := none,
    rating := 4, review_count := 0, is_featured := false, is_new := false, is_viral := false,
    created_at := 0 }

/-! ## Cart aggregation (`CartPage.js` lines 47-57, `App.js` lines 101-112) -/

/-- One cart item, as returned by `GET /api/cart`.  The quantity is an
integer; nothing in the client forces it to be positive. -/
structure CartItem where
  id : String
  product_id : String
  quantity : Int
  deriving DecidableEq

/-- The object `{ ...item, product }` of `CartPage` line 49: the cart item's
fields and the product found for it, `none` standing for `undefined`. -/
structure CartItemWithDetails where
  id : String
  product_id : String
  quantity : Int
  product : Option Product
  deriving DecidableEq

/-- The lookup `products.find(p => p.id === id)`. -/
def findProduct (products : List Product) (id : String) : Option Product :=
  products.find? (fun p => p.id == id)

/-- `cartItemsWithDetails` of `CartPage` (lines 47-50): every item is paired
with the product found for it, then the items without a product are filtered
out.  (The component computes it only for a non-empty `items`; for the empty
list it would be empty.) -/
def cartItemsWithDetails (items : List CartItem) (products : List Product) :
    List CartItemWithDetails :=
  (items.map (fun item =>
    ({ id := item.id, product_id := item.product_id, quantity := item.quantity,
       product := findProduct products item.product_id } : CartItemWithDetails))).filter
    (fun item => item.product.isSome)

/-- `Array.prototype.reduce` with a callback that may throw: the elements are
visited in order and the first exception ends the call. -/
def reduceChecked {α β : Type} (f : β → α → Except Fault β) (init : β) :
    List α → Except Fault β
  | [] => Except.ok init
  | x :: xs =>
    match f init x with
    | Except.error e => Except.error e
    | Except.ok acc => reduceChecked f acc xs

/-- `subtotal` of `CartPage` (lines 52-54).  Reading `item.product.price` on
an item whose product is `undefined` would raise a `TypeError`. -/
def subtotal (items : List CartItem) (products : List Product) : Except Fault ℚ :=
  reduceChecked
    (fun sum item =>
      match item.product with
      | none => Except.error Fault.typeError
      | some product => Except.ok (sum + product.price * item.quantity))
    0 (cartItemsWithDetails items products)

/-- The four amounts of the order summary. -/
structure CartTotals where
  subtotal : ℚ
  shipping : ℚ
  tax : ℚ
  finalTotal : ℚ
  deriving DecidableEq

/-- Lines 52-57 of `CartPage`: subtotal, free shipping, 8% tax, total. -/
def cartTotals (items : List CartItem) (products : List Product) : Except Fault CartTotals :=
  match subtotal items products with
  | Except.error e => Except.error e
  | Except.ok subtotal =>
    let shipping : ℚ := 0
    let tax : ℚ := subtotal * 0.08
    let finalTotal : ℚ := subtotal + shipping + tax
    Except.ok { subtotal := subtotal, shipping := shipping, tax := tax, finalTotal := finalTotal }

/-- The data fields of the context value `cartValue` of `App` (lines
101-112). -/
structure CartValue where
  items : List CartItem
  itemCount : Int
  total : ℚ
  deriving DecidableEq

/-- `cartValue` of `App`: the items, the sum of their quantities, and the sum
of price times quantity in which an item without a product counts 0. -/
def cartValue (cartItems : List CartItem) (products : List Product) : CartValue :=
  { items := cartItems
    itemCount := cartItems.foldl (fun sum item => sum + item.quantity) 0
    total := cartItems.foldl
      (fun sum item =>
        sum + (match findProduct products item.product_id with
          | some product => product.price * item.quantity
          | none => 0))
      0 }

/-- The cart item a line item was made from. -/
def CartItemWithDetails.toCartItem (line : CartItemWithDetails) : CartItem :=
  { id := line.id, product_id := line.product_id, quantity := line.quantity }

/-- The line item of a cart item and the product found for it. -/
def CartItem.withProduct (item : CartItem) (product : Product) : CartItemWithDetails :=
  { id := item.id, product_id := item.product_id, quantity := item.quantity,
    product := some product }

/-- Whether the product id of a cart item is the id of some product. -/
def resolves (products : List Product) (item : CartItem) : Bool :=
  products.any (fun p => p.id == item.product_id)

/-- The amount a cart item adds to the subtotal: price times quantity of the
first product with the item's product id, and 0 when there is none. -/
def lineAmount (products : List Product) (item : CartItem) : ℚ :=
  match findProduct products item.product_id with
  | some product => product.price * item.quantity
  | none => 0

/-- The product `p1` of the cart scenario. -/
def scenarioP1 : Product :=
  { id := "p1", name := "p1", description := "", short_description := "",
    category := "skincare", skin_types := [], price := 20, original_price := some 25,
    rating := 4, review_count := 0, is_featured := false, is_new := false,
    is_viral := false, created_at := 0 }

/-- The product `p2` of the cart scenario. -/
def scenarioP2 : Product :=
  { id := "p2", name := "p2", description := "", short_description := "",
    category := "skincare", skin_types := [], price := 10, original_price := none,
    rating := 4, review_count := 0, is_featured := false, is_new := false,
    is_viral := false, created_at := 0 }

/-- The cart of the cart scenario: two of `p1` and five of a product that is
not in the catalogue. -/
def scenarioCart : List CartItem :=
  [{ id := "c1", product_id := "p1", quantity := 2 },
   { id := "c1b", product_id := "ghost", quantity := 5 }]

/-! ## Cart store (`App.js` lines 20-99): requests, events, state

An `async` function runs up to its `await`, is suspended while the request is
in flight and goes on when the outcome arrives.  The outcome of the awaited
request is an argument of the function that models the call: `Except.ok` for
a response with a success status, `Except.error` for anything else.  What a
call does is recorded, in order, at the end of the state's `trace`.  A call
of `fetchCart()` that is not awaited sends `GET /cart` at once
(`fetchCartCall`); the rest of `fetchCart` runs when that response arrives
(`fetchCartSettle`). -/

/-- The requests the client sends, by method and path under `/api`. -/
inductive Request where
  | postInitProducts
  | getProducts
  | getCart
  | postCart (product_id : String) (quantity : Int)
  | deleteCartItem (itemId : String)
  | putCartItem (itemId : String) (quantity : Int)
  | deleteCart
  | postNewsletter (email : String)
  deriving DecidableEq

/-- A failed request as axios reports it: the status of the response, when
there is a response. -/
structure RequestError where
  status : Option Nat
  deriving DecidableEq

/-- What a call does that can be observed from outside. -/
inductive Event where
  | request (r : Request)
  | response (r : Request) (ok : Bool)
  | consoleError (message : String)
  | toastSuccess (title : String)
  | toastError (title : String)
  deriving DecidableEq

/-- The state of `App` (lines 21-23) and the record of what happened. -/
structure AppState where
  cartItems : List CartItem
  products : List Product
  loading : Bool
  trace : List Event

/-- The state of `App` when it is mounted. -/
def AppState.initial : AppState :=
  { cartItems := [], products := [], loading := true, trace := [] }

/-- Record events. -/
def AppState.emit (st : AppState) (events : List Event) : AppState :=
  { st with trace := st.trace ++ events }

/-- The events recorded since `before`: what was added to the trace on the
way to `later`. -/
def eventsSince (before later : AppState) : List Event :=
  later.trace.drop before.trace.length

/-- Whether the outcome of a request is a success. -/
def succeeded {α : Type} : Except RequestError α → Bool
  | Except.ok _ => true
  | Except.error _ => false

/-- The step `await axios.method(url)`: the request is sent and the call
goes on when its outcome has arrived. -/
def AppState.awaitRequest {α : Type} (st : AppState) (r : Request)
    (outcome : Except RequestError α) : AppState :=
  st.emit [Event.request r, Event.response r (succeeded outcome)]

/-- A call `fetchCart()` that is not awaited: `axios.get` sends `GET /cart`
before the call returns to its caller. -/
def fetchCartCall (st : AppState) : AppState :=
  st.emit [Event.request Request.getCart]

/-- The rest of `fetchCart` (lines 53-57), run when the response arrives. -/
def fetchCartSettle (st : AppState) (response : Except RequestError (List CartItem)) :
    AppState :=
  match response with
  | Except.ok data =>
    { st.emit [Event.response Request.getCart true] with cartItems := data }
  | Except.error _ =>
    st.emit [Event.response Request.getCart false, Event.consoleError "Error fetching cart:"]

/-- The rest of `fetchProducts` (lines 42-48), run when the response
arrives. -/
def fetchProductsSettle (st : AppState) (response : Except RequestError (List Product)) :
    AppState :=
  match response with
  | Except.ok data =>
    { st.emit [Event.response Request.getProducts true] with products := data, loading := false }
  | Except.error _ =>
    { st.emit [Event.response Request.getProducts false,
        Event.consoleError "Error fetching products:"] with loading := false }

/-- `addToCart` (lines 60-72); `response` is the outcome of `POST /cart`.
The source gives `quantity` the default 1, which the callers that pass no
quantity supply here.  The first component is what the call returns, or the
exception it throws. -/
def addToCart (st : AppState) (productId : String) (quantity : Int)
    (response : Except RequestError Unit) : Except RequestError Bool × AppState :=
  let st := st.awaitRequest (Request.postCart productId quantity) response
  match response with
  | Except.ok _ => (Except.ok true, fetchCartCall st)
  | Except.error _ => (Except.ok false, st.emit [Event.consoleError "Error adding to cart:"])

/-- `removeFromCart` (lines 74-81); `response` is the outcome of
`DELETE /cart/{itemId}`. -/
def removeFromCart (st : AppState) (itemId : String) (response : Except RequestError Unit) :
    Except RequestError Unit × AppState :=
  let st := st.awaitRequest (Request.deleteCartItem itemId) response
  match response with
  | Except.ok _ => (Except.ok (), fetchCartCall st)
  | Except.error _ => (Except.ok (), st.emit [Event.consoleError "Error removing from cart:"])

/-- `updateCartItem` (lines 83-90); `response` is the outcome of
`PUT /cart/{itemId}?quantity={quantity}`. -/
def updateCartItem (st : AppState) (itemId : String) (quantity : Int)
    (response : Except RequestError Unit) : Except RequestError Unit × AppState :=
  let st := st.awaitRequest (Request.putCartItem itemId quantity) response
  match response with
  | Except.ok _ => (Except.ok (), fetchCartCall st)
  | Except.error _ => (Except.ok (), st.emit [Event.consoleError "Error updating cart item:"])

/-- `clearCart` (lines 92-99); `response` is the outcome of `DELETE /cart`. -/
def clearCart (st : AppState) (response : Except RequestError Unit) :
    Except RequestError Unit × AppState :=
  let st := st.awaitRequest Request.deleteCart response
  match response with
  | Except.ok _ => (Except.ok (), fetchCartCall st)
  | Except.error _ => (Except.ok (), st.emit [Event.consoleError "Error clearing cart:"])

/-! ## Handlers of the pages -/

/-- `handleQuantityChange` of `CartPage` (lines 10-17). -/
def handleQuantityChange (st : AppState) (itemId : String) (newQuantity : Int)
    (response : Except RequestError Unit) : Except RequestError Unit × AppState :=
  if newQuantity ≤ 0 then
    match removeFromCart st itemId response with
    | (Except.ok _, st) => (Except.ok (), st.emit [Event.toastSuccess "Item removed from cart"])
    | (Except.error e, st) => (Except.error e, st)
  else
    updateCartItem st itemId newQuantity response

/-- `handleRemoveItem` of `CartPage` (lines 19-22). -/
def handleRemoveItem (st : AppState) (itemId : String) (response : Except RequestError Unit) :
    Except RequestError Unit × AppState :=
  match removeFromCart st itemId response with
  | (Except.ok _, st) => (Except.ok (), st.emit [Event.toastSuccess "Item removed from cart"])
  | (Except.error e, st) => (Except.error e, st)

/-- `handleClearCart` of `CartPage` (lines 24-27). -/
def handleClearCart (st : AppState) (response : Except RequestError Unit) :
    Except RequestError Unit × AppState :=
  match clearCart st response with
  | (Except.ok _, st) => (Except.ok (), st.emit [Event.toastSuccess "Cart cleared"])
  | (Except.error e, st) => (Except.error e, st)

/-- The body shared by the three `handleAddToCart`: the call of `addToCart`
and the toast that reports its result. -/
def addToCartWithToast (st : AppState) (productId : String) (quantity : Int)
    (response : Except RequestError Unit) : Except RequestError Unit × AppState :=
  match addToCart st productId quantity response with
  | (Except.ok true, st) => (Except.ok (), st.emit [Event.toastSuccess "Added to cart!"])
  | (Except.ok false, st) => (Except.ok (), st.emit [Event.toastError "Failed to add to cart"])
  | (Except.error e, st) => (Except.error e, st)

/-- `handleAddToCart` of `HomePage` (lines 19-30) and of `ShopPage` (lines
109-120): `addToCart(productId)`, the quantity left to its default. -/
def handleAddToCart (st : AppState) (productId : String) (response : Except RequestError Unit) :
    Except RequestError Unit × AppState :=
  addToCartWithToast st productId 1 response

/-- `handleAddToCart` of `ProductPage` (lines 35-46):
`addToCart(product.id, quantity)` with the page's quantity state. -/
def productHandleAddToCart (st : AppState) (productId : String) (quantity : Int)
    (response : Except RequestError Unit) : Except RequestError Unit × AppState :=
  addToCartWithToast st productId quantity response

/-- The state of `App` together with the quantity state of `ProductPage`
(line 10). -/
structure UIState where
  app : AppState
  quantity : Int

/-- The session at its start: `App` mounted, the quantity at `useState(1)`. -/
def UIState.initial : UIState :=
  { app := AppState.initial, quantity := 1 }

/-- What can happen in a session as far as quantities go: the clicks that
change a quantity or send one, and the arrival of a response to `GET /cart`
or `GET /products`.  A cart button is named by the position of its line
among the rendered line items. -/
inductive UIEvent where
  | openProductPage
  | productMinus
  | productPlus
  | productAddToCart (productId : String) (response : Except RequestError Unit)
  | homeAddToCart (productId : String) (response : Except RequestError Unit)
  | shopAddToCart (productId : String) (response : Except RequestError Unit)
  | cartMinus (line : Nat) (response : Except RequestError Unit)
  | cartPlus (line : Nat) (response : Except RequestError Unit)
  | cartRemove (line : Nat) (response : Except RequestError Unit)
  | cartClear (response : Except RequestError Unit)
  | cartFetched (response : Except RequestError (List CartItem))
  | productsFetched (response : Except RequestError (List Product))

/-- One event of the session.  `ProductPage` lines 170 and 177 for the
quantity buttons, `CartPage` lines 102, 109, 123 and 68 for the cart
buttons. -/
def uiStep (ui : UIState) : UIEvent → UIState
  | UIEvent.openProductPage => { ui with quantity := 1 }
  | UIEvent.productMinus => { ui with quantity := max 1 (ui.quantity - 1) }
  | UIEvent.productPlus => { ui with quantity := ui.quantity + 1 }
  | UIEvent.productAddToCart productId response =>
    { ui with app := (productHandleAddToCart ui.app productId ui.quantity response).2 }
  | UIEvent.homeAddToCart productId response =>
    { ui with app := (handleAddToCart ui.app productId response).2 }
  | UIEvent.shopAddToCart productId response =>
    { ui with app := (handleAddToCart ui.app productId response).2 }
  | UIEvent.cartMinus line response =>
    match (cartItemsWithDetails ui.app.cartItems ui.app.products)[line]? with
    | some item =>
      { ui with app := (handleQuantityChange ui.app item.id (item.quantity - 1) response).2 }
    | none => ui
  | UIEvent.cartPlus line response =>
    match (cartItemsWithDetails ui.app.cartItems ui.app.products)[line]? with
    | some item =>
      { ui with app := (handleQuantityChange ui.app item.id (item.quantity + 1) response).2 }
    | none => ui
  | UIEvent.cartRemove line response =>
    match (cartItemsWithDetails ui.app.cartItems ui.app.products)[line]? with
    | some item => { ui with app := (handleRemoveItem ui.app item.id response).2 }
    | none => ui
  | UIEvent.cartClear response => { ui with app := (handleClearCart ui.app response).2 }
  | UIEvent.cartFetched response => { ui with app := fetchCartSettle ui.app response }
  | UIEvent.productsFetched response => { ui with app := fetchProductsSettle ui.app response }

/-- A session: the events one after the other. -/
def runSession (ui : UIState) (events : List UIEvent) : UIState :=
  events.foldl uiStep ui

/-- The quantity a request asks the server to store, when it carries one. -/
def Request.quantity? : Request → Option Int
  | Request.postCart _ quantity => some quantity
  | Request.putCartItem _ quantity => some quantity
  | _ => none

/-- Every request of the trace that carries a quantity carries one that is
at least 1. -/
def PersistsPositive (trace : List Event) : Prop :=
  ∀ r quantity, Event.request r ∈ trace → r.quantity? = some quantity → 1 ≤ quantity

/-- The cart the server hands over has quantities that are at least 1. -/
def DeliversPositive : UIEvent → Prop
  | UIEvent.cartFetched (Except.ok data) => ∀ item ∈ data, 1 ≤ item.quantity
  | _ => True

/-- In `events` every `GET /cart` stands after the response to the request
`mutation`. -/
def RefetchAfterResponse (mutation : Request) (events : List Event) : Prop :=
  ∀ before after, events = before ++ Event.request Request.getCart :: after →
    ∃ ok, Event.response mutation ok ∈ before

/-! ## Session start and the two fetches (`App.js` lines 25-58) -/

/-- A call `fetchProducts()` that is not awaited: `axios.get` sends
`GET /products` before the call returns to its caller. -/
def fetchProductsCall (st : AppState) : AppState :=
  st.emit [Event.request Request.getProducts]

/-- A call `initializeProducts()` that is not awaited: `axios.post` sends
`POST /init-products` before the call returns to its caller. -/
def initializeProductsCall (st : AppState) : AppState :=
  st.emit [Event.request Request.postInitProducts]

/-- The rest of `initializeProducts` (lines 34-37), run when the response
arrives. -/
def initializeProductsSettle (st : AppState) (response : Except RequestError Unit) : AppState :=
  match response with
  | Except.ok _ => st.emit [Event.response Request.postInitProducts true]
  | Except.error _ =>
    st.emit [Event.response Request.postInitProducts false,
      Event.consoleError "Error initializing products:"]

/-- The effect that runs once when `App` is mounted (lines 26-30): the three
calls, none of them awaited, in the order of the source. -/
def appMount (st : AppState) : AppState :=
  initializeProductsCall (fetchCartCall (fetchProductsCall st))

/-- `fetchProducts` (lines 40-49) from the call to its end; `response` is the
outcome of `GET /products`.  The first component is what the call returns, or
the exception it throws. -/
def fetchProducts (st : AppState) (response : Except RequestError (List Product)) :
    Except RequestError Unit × AppState :=
  let st := st.awaitRequest Request.getProducts response
  match response with
  | Except.ok data => (Except.ok (), { st with products := data, loading := false })
  | Except.error _ =>
    (Except.ok (),
      { st.emit [Event.consoleError "Error fetching products:"] with loading := false })

/-- `fetchCart` (lines 51-58) from the call to its end; `response` is the
outcome of `GET /cart`. -/
def fetchCart (st : AppState) (response : Except RequestError (List CartItem)) :
    Except RequestError Unit × AppState :=
  let st := st.awaitRequest Request.getCart response
  match response with
  | Except.ok data => (Except.ok (), { st with cartItems := data })
  | Except.error _ => (Except.ok (), st.emit [Event.consoleError "Error fetching cart:"])

/-- The arrival of the response to one of the three requests of the mount
effect. -/
inductive SettleEvent where
  | products (response : Except RequestError (List Product))
  | cart (response : Except RequestError (List CartItem))
  | seed (response : Except RequestError Unit)

/-- What the arrival of a response runs. -/
def settleStep (st : AppState) : SettleEvent → AppState
  | SettleEvent.products response => fetchProductsSettle st response
  | SettleEvent.cart response => fetchCartSettle st response
  | SettleEvent.seed response => initializeProductsSettle st response

/-- The start of a session: `App` is mounted, then responses arrive. -/
def startSession (settles : List SettleEvent) : AppState :=
  settles.foldl settleStep (appMount AppState.initial)

/-- The requests of a trace, in the order in which they were sent. -/
def requestsOf (trace : List Event) : List Request :=
  trace.filterMap (fun event =>
    match event with
    | Event.request r => some r
    | _ => none)

/-- In `trace` every sending of `second` stands after a sending of
`first`. -/
def IssuedBefore (first second : Request) (trace : List Event) : Prop :=
  ∀ before after, trace = before ++ Event.request second :: after →
    Event.request first ∈ before

/-! ## Newsletter form (`HomePage.js` lines 13-14 and 32-58) -/

/-- `String.prototype.trim`: white space and line terminators are removed at
both ends. -/
def trim (s : String) : String :=
  ⟨((s.data.dropWhile isTrimmed).reverse.dropWhile isTrimmed).reverse⟩

/-- The state of the newsletter form. -/
structure HomePageState where
  newsletterEmail : String
  isSubscribing : Bool
  deriving DecidableEq

/-- `handleNewsletterSubmit` (lines 32-58); `response` is the outcome of
`POST /newsletter`, which is looked at only when the request is sent. -/
def handleNewsletterSubmit (st : AppState) (page : HomePageState)
    (response : Except RequestError Unit) : Except RequestError Unit × AppState × HomePageState :=
  if trim page.newsletterEmail = "" then (Except.ok (), st, page)
  else
    let st := st.awaitRequest (Request.postNewsletter (trim page.newsletterEmail)) response
    match response with
    | Except.ok _ =>
      (Except.ok (), st.emit [Event.toastSuccess "Successfully subscribed!"],
        { newsletterEmail := "", isSubscribing := false })
    | Except.error error =>
      if error.status = some 400 then
        (Except.ok (), st.emit [Event.toastError "Already subscribed"],
          { newsletterEmail := page.newsletterEmail, isSubscribing := false })
      else
        (Except.ok (), st.emit [Event.toastError "Subscription failed"],
          { newsletterEmail := page.newsletterEmail, isSubscribing := false })

/-! ## Discount badge and related products -/

/-- `Math.round`: the nearest integer, a half rounded up. -/
def mathRound (x : ℚ) : Int :=
  Int.floor (x + 1 / 2)

/-- The percentage of the discount badge (`ShopPage.js` lines 356-360,
`ProductPage.js` lines 80-84, `HomePage.js` lines 146-150).  The guard
`product.original_price && ...` lets the percentage be computed only for an
original price that is present and not 0. -/
def discountBadge (product : Product) : Option Int :=
  match product.original_price with
  | none => none
  | some original_price =>
    if original_price = 0 then none
    else some (mathRound ((original_price - product.price) / original_price * 100))

/-- `relatedProducts` of `ProductPage` (lines 31-33). -/
def relatedProducts (products : List Product) (product : Product) : List Product :=
  (products.filter (fun p => p.category == product.category && p.id != product.id)).take 4

/-- The criteria `tighter` come from `filters` by filling in criteria that
were empty, by raising a lower price bound that parses, or by lowering an
upper price bound that parses; the other criteria are the same. -/
def Tightens (filters tighter : Filters) : Prop :=
  (filters.search = "" ∨ tighter.search = filters.search) ∧
  (filters.category = "" ∨ tighter.category = filters.category) ∧
  (filters.skinType = "" ∨ tighter.skinType = filters.skinType) ∧
  (filters.minPrice = "" ∨ tighter.minPrice = filters.minPrice ∨
    ∃ lo lo', parseFloat filters.minPrice = JSNumber.fin lo ∧
      parseFloat tighter.minPrice = JSNumber.fin lo' ∧ lo ≤ lo') ∧
  (filters.maxPrice = "" ∨ tighter.maxPrice = filters.maxPrice ∨
    ∃ hi hi', parseFloat filters.maxPrice = JSNumber.fin hi ∧
      parseFloat tighter.maxPrice = JSNumber.fin hi' ∧ hi' ≤ hi)

/-! ## The filter controls of `ShopPage` (lines 12-18, 86-107, 145-334)

The price bounds reach `filters` only from the two `<input type="number">`
elements.  The value such an element hands over is the text typed into it
when that text is a valid floating-point number, and the empty string
otherwise (the value sanitization of HTML for the Number state). -/

/-- An exponent part of a valid floating-point number, or nothing: `e` or
`E`, an optional sign, one or more digits. -/
def validExponent : List Char → Bool
  | [] => true
  | c :: rest =>
    (c == 'e' || c == 'E') &&
      (match rest with
        | '-' :: ds => !ds.isEmpty && ds.all Char.isDigit
        | '+' :: ds => !ds.isEmpty && ds.all Char.isDigit
        | ds => !ds.isEmpty && ds.all Char.isDigit)

/-- A valid floating-point number without its sign: digits, or digits
followed by a fraction, or a fraction alone, then an optional exponent. -/
def validUnsigned (cs : List Char) : Bool :=
  match cs.dropWhile Char.isDigit with
  | '.' :: r => !(r.takeWhile Char.isDigit).isEmpty && validExponent (r.dropWhile Char.isDigit)
  | r1 => !(cs.takeWhile Char.isDigit).isEmpty && validExponent r1

/-- A valid floating-point number of HTML: an optional `-`, then the unsigned
part. -/
def isValidFloatingPointNumber (cs : List Char) : Bool :=
  match cs with
  | '-' :: rest => validUnsigned rest
  | _ => validUnsigned cs

/-- The `value` of an `<input type="number">` into which `typed` was
entered. -/
def numberInputValue (typed : String) : String :=
  if isValidFloatingPointNumber typed.data then typed else ""

/-- The initial `filters` (lines 12-18): category and search from the query
parameters, defaulting to the empty string, the rest empty. -/
def initialFilters (category search : String) : Filters :=
  { category := category, skinType := "", minPrice := "", maxPrice := "", search := search }

/-- `handleFilterChange` (lines 86-88): `setFilters({ ...filters, [key]: value })`. -/
def handleFilterChange (filters : Filters) (key value : String) : Filters :=
  match key with
  | "category" => { filters with category := value }
  | "skinType" => { filters with skinType := value }
  | "minPrice" => { filters with minPrice := value }
  | "maxPrice" => { filters with maxPrice := value }
  | "search" => { filters with search := value }
  | _ => filters

/-- `clearFilters` (lines 98-105). -/
def clearFilters : Filters :=
  { category := "", skinType := "", minPrice := "", maxPrice := "", search := "" }

/-- What the visitor does to the filter controls: text typed into the search
box or into one of the two price fields, a category or skin type chosen, the
filters cleared. -/
inductive FilterEvent where
  | search (typed : String)
  | category (value : String)
  | skinType (value : String)
  | minPrice (typed : String)
  | maxPrice (typed : String)
  | clear

/-- The `onChange` and `onClick` handlers of the filter controls (lines 151,
212, 268, 322, 330, 198). -/
def filterStep (filters : Filters) : FilterEvent → Filters
  | FilterEvent.search typed => handleFilterChange filters "search" typed
  | FilterEvent.category value => handleFilterChange filters "category" value
  | FilterEvent.skinType value => handleFilterChange filters "skinType" value
  | FilterEvent.minPrice typed => handleFilterChange filters "minPrice" (numberInputValue typed)
  | FilterEvent.maxPrice typed => handleFilterChange filters "maxPrice" (numberInputValue typed)
  | FilterEvent.clear => clearFilters

/-- The `filters` reached from the initial state by a sequence of events. -/
def filtersAfter (category search : String) (events : List FilterEvent) : Filters :=
  events.foldl filterStep (initialFilters category search)

/-! ## The sort: permutation, order, stability, fixed points -/

section SortLemmas

variable {α : Type} (compareFn : α → α → ℚ)

theorem perm_insertBy (x : α) (l : List α) : (insertBy compareFn x l).Perm (x :: l) := by
  induction l with
  | nil => exact List.Perm.refl _
  | cons y ys ih =>
    unfold insertBy
    split
    · exact List.Perm.refl _
    · exact (List.Perm.cons y ih).trans (List.Perm.swap x y ys)

theorem perm_sort (l : List α) : (sort compareFn l).Perm l := by
  induction l with
  | nil => exact List.Perm.refl _
  | cons x xs ih =>
    unfold sort
    exact (perm_insertBy compareFn x _).trans (List.Perm.cons x ih)

theorem mem_insertBy {x z : α} {l : List α} : z ∈ insertBy compareFn x l ↔ z = x ∨ z ∈ l := by
  rw [(perm_insertBy compareFn x l).mem_iff, List.mem_cons]

theorem mem_sort {z : α} {l : List α} : z ∈ sort compareFn l ↔ z ∈ l :=
  (perm_sort compareFn l).mem_iff

theorem pairwise_insertBy (hc : Consistent compareFn) (x : α) (l : List α)
    (hl : l.Pairwise (fun a b => compareFn a b ≤ 0)) :
    (insertBy compareFn x l).Pairwise (fun a b => compareFn a b ≤ 0) := by
  induction l with
  | nil => simp [insertBy]
  | cons y ys ih =>
    rw [List.pairwise_cons] at hl
    unfold insertBy
    split
    · rename_i hxy
      refine List.pairwise_cons.mpr ⟨?_, List.pairwise_cons.mpr hl⟩
      intro z hz
      rcases List.mem_cons.mp hz with rfl | hz
      · exact hxy
      · exact hc.2 x y z hxy (hl.1 z hz)
    · rename_i hxy
      refine List.pairwise_cons.mpr ⟨?_, ih hl.2⟩
      intro z hz
      rcases (mem_insertBy compareFn).mp hz with rfl | hz
      · exact (hc.1 z y).resolve_left hxy
      · exact hl.1 z hz

theorem pairwise_sort (hc : Consistent compareFn) (l : List α) :
    (sort compareFn l).Pairwise (fun a b => compareFn a b ≤ 0) := by
  induction l with
  | nil => simp [sort]
  | cons x xs ih =>
    unfold sort
    exact pairwise_insertBy compareFn hc x _ ih

theorem insertBy_of_forall_le (x : α) (l : List α) (h : ∀ z ∈ l, compareFn x z ≤ 0) :
    insertBy compareFn x l = x :: l := by
  cases l with
  | nil => rfl
  | cons y ys => simp [insertBy, h y (List.mem_cons_self y ys)]

theorem sort_of_pairwise (l : List α) (hl : l.Pairwise (fun a b => compareFn a b ≤ 0)) :
    sort compareFn l = l := by
  induction l with
  | nil => rfl
  | cons x xs ih =>
    rw [List.pairwise_cons] at hl
    unfold sort
    rw [ih hl.2]
    exact insertBy_of_forall_le compareFn x xs hl.1

theorem sort_sort (hc : Consistent compareFn) (l : List α) :
    sort compareFn (sort compareFn l) = sort compareFn l :=
  sort_of_pairwise compareFn _ (pairwise_sort compareFn hc l)

theorem filter_insertBy (q : α → Bool) (hq : ∀ a b, q a = true → q b = true → compareFn a b ≤ 0)
    (x : α) (l : List α) :
    (insertBy compareFn x l).filter q = (x :: l).filter q := by
  induction l with
  | nil => rfl
  | cons y ys ih =>
    unfold insertBy
    split
    · rfl
    · rename_i hxy
      have hnot : ¬ (q x = true ∧ q y = true) := fun h => hxy (hq x y h.1 h.2)
      rw [List.filter_cons, ih]
      by_cases hx : q x = true
      · have hy : q y = false := by
          cases hqy : q y
          · rfl
          · exact absurd ⟨hx, hqy⟩ hnot
        simp [List.filter_cons, hx, hy]
      · simp [List.filter_cons, hx]

theorem filter_sort (q : α → Bool) (hq : ∀ a b, q a = true → q b = true → compareFn a b ≤ 0)
    (l : List α) : (sort compareFn l).filter q = l.filter q := by
  induction l with
  | nil => rfl
  | cons x xs ih =>
    unfold sort
    rw [filter_insertBy compareFn q hq, List.filter_cons, List.filter_cons, ih]

theorem filter_sort_of_forall (q : α → Bool) (l : List α) (h : ∀ z ∈ l, q z = true) :
    (sort compareFn l).filter q = sort compareFn l :=
  List.filter_eq_self.mpr (fun z hz => h z ((mem_sort compareFn).mp hz))

end SortLemmas

/-! ## The filter chain is one conjunctive filter -/

theorem filter_when (s : String) (q : Product → Bool) (l : List Product) :
    (if s ≠ "" then l.filter q else l) = l.filter (fun a => s == "" || q a) := by
  by_cases h : s = ""
  · simp [h]
  · have hb : (s == "") = false := by simpa using h
    rw [if_pos h]
    simp [hb]

theorem filterProducts_eq_filter (products : List Product) (filters : Filters) :
    filterProducts products filters = products.filter (matchesCriteria filters) := by
  unfold filterProducts
  dsimp only
  rw [filter_when, filter_when, filter_when, filter_when, filter_when]
  simp only [List.filter_filter]
  congr 1
  funext p
  unfold matchesCriteria
  generalize (filters.search == "" || searchMatches filters.search p) = b1
  generalize (filters.category == "" || p.category == filters.category) = b2
  generalize (filters.skinType == "" || p.skin_types.contains filters.skinType) = b3
  generalize (filters.minPrice == "" || JSNumber.geOf p.price (parseFloat filters.minPrice)) = b4
  generalize (filters.maxPrice == "" || JSNumber.leOf p.price (parseFloat filters.maxPrice)) = b5
  cases b1 <;> cases b2 <;> cases b3 <;> cases b4 <;> cases b5 <;> rfl

theorem sortProducts_perm (filtered : List Product) (sortBy : String) :
    (sortProducts filtered sortBy).Perm filtered := by
  unfold sortProducts
  split <;> exact perm_sort _ _

/-! ## The output holds exactly the matching products -/

/-- C1: for every product list, criteria and sort key, the output of
`applyFilters` is a permutation of the sublist of the products that match
every criterion that is set; each output element is an input product that
matches, and each matching product occurs in the output as often as in the
input. -/
theorem applyFilters_perm_matching (products : List Product) (filters : Filters)
    (sortBy : String) :
    (applyFilters products filters sortBy).Perm (products.filter (matchesCriteria filters)) ∧
    (products.filter (matchesCriteria filters)).Sublist products ∧
    (∀ p, p ∈ applyFilters products filters sortBy ↔
      p ∈ products ∧ matchesCriteria filters p = true) ∧
    (∀ p, matchesCriteria filters p = true →
      (applyFilters products filters sortBy).count p = products.count p) := by
  have hperm : (applyFilters products filters sortBy).Perm
      (products.filter (matchesCriteria filters)) := by
    unfold applyFilters
    rw [← filterProducts_eq_filter]
    exact sortProducts_perm _ _
  refine ⟨hperm, List.filter_sublist products, ?_, ?_⟩
  · intro p
    rw [hperm.mem_iff, List.mem_filter]
  · intro p hp
    rw [hperm.count_eq, List.count_filter hp]

/-! ## Order, stability and idempotence -/

theorem consistent_price_low : Consistent (fun a b : Product => a.price - b.price) := by
  refine ⟨fun a b => ?_, fun a b c h1 h2 => ?_⟩ <;> dsimp only at *
  · rcases le_total a.price b.price with h | h
    · left; linarith
    · right; linarith
  · linarith

theorem consistent_price_high : Consistent (fun a b : Product => b.price - a.price) := by
  refine ⟨fun a b => ?_, fun a b c h1 h2 => ?_⟩ <;> dsimp only at *
  · rcases le_total a.price b.price with h | h
    · right; linarith
    · left; linarith
  · linarith

theorem consistent_rating : Consistent (fun a b : Product => b.rating - a.rating) := by
  refine ⟨fun a b => ?_, fun a b c h1 h2 => ?_⟩ <;> dsimp only at *
  · rcases le_total a.rating b.rating with h | h
    · right; linarith
    · left; linarith
  · linarith

theorem newest_le_iff (a b : Product) :
    ((b.created_at - a.created_at : Int) : ℚ) ≤ 0 ↔ b.created_at ≤ a.created_at := by
  rw [show (0 : ℚ) = ((0 : Int) : ℚ) from rfl, Int.cast_le]
  omega

theorem consistent_newest :
    Consistent (fun a b : Product => ((b.created_at - a.created_at : Int) : ℚ)) := by
  refine ⟨fun a b => ?_, fun a b c h1 h2 => ?_⟩
  · rw [newest_le_iff, newest_le_iff]
    omega
  · rw [newest_le_iff] at h1 h2 ⊢
    omega

theorem featuredCompare_le_iff (a b : Product) :
    featuredCompare a b ≤ 0 ↔
      (b.is_featured = true → a.is_featured = true) ∧
      (a.is_featured = b.is_featured → b.rating ≤ a.rating) := by
  unfold featuredCompare
  cases ha : a.is_featured <;> cases hb : b.is_featured <;> simp

theorem consistent_featured : Consistent featuredCompare := by
  refine ⟨fun a b => ?_, fun a b c h1 h2 => ?_⟩
  · rw [featuredCompare_le_iff, featuredCompare_le_iff]
    cases ha : a.is_featured <;> cases hb : b.is_featured <;> simp
    · exact le_total _ _
    · exact le_total _ _
  · rw [featuredCompare_le_iff] at h1 h2 ⊢
    revert h1 h2
    cases ha : a.is_featured <;> cases hb : b.is_featured <;> cases hc : c.is_featured <;> simp
    · intro h1 h2; linarith
    · intro h1 h2; linarith

/-- Whatever the sort key, `sortProducts` is the stable sort for one
consistent comparator. -/
theorem sortProducts_eq_sort (sortBy : String) :
    ∃ compareFn : Product → Product → ℚ, Consistent compareFn ∧
      ∀ filtered, sortProducts filtered sortBy = sort compareFn filtered := by
  by_cases h1 : sortBy = "price-low"
  · exact ⟨_, consistent_price_low, fun l => by rw [h1]; rfl⟩
  by_cases h2 : sortBy = "price-high"
  · exact ⟨_, consistent_price_high, fun l => by rw [h2]; rfl⟩
  by_cases h3 : sortBy = "rating"
  · exact ⟨_, consistent_rating, fun l => by rw [h3]; rfl⟩
  by_cases h4 : sortBy = "newest"
  · exact ⟨_, consistent_newest, fun l => by rw [h4]; rfl⟩
  refine ⟨_, consistent_featured, fun l => ?_⟩
  unfold sortProducts
  split <;> first | rfl | contradiction

theorem keepsTieOrder_sort {κ : Type} [DecidableEq κ] (key : Product → κ)
    (compareFn : Product → Product → ℚ)
    (htie : ∀ a b, key a = key b → compareFn a b ≤ 0) (l : List Product) :
    KeepsTieOrder key l (sort compareFn l) := by
  have hfilter : ∀ v, (sort compareFn l).filter (fun p => decide (key p = v)) =
      l.filter (fun p => decide (key p = v)) := by
    intro v
    apply filter_sort
    intro a b ha hb
    apply htie
    rw [of_decide_eq_true ha, of_decide_eq_true hb]
  refine ⟨hfilter, fun a b hab => ?_⟩
  have hpair : [a, b].filter (fun p => decide (key p = key b)) = [a, b] := by
    simp [hab]
  constructor
  · intro h
    have h2 := h.filter (fun p => decide (key p = key b))
    rw [hpair, hfilter] at h2
    exact h2.trans (List.filter_sublist l)
  · intro h
    have h2 := h.filter (fun p => decide (key p = key b))
    rw [hpair, ← hfilter] at h2
    exact h2.trans (List.filter_sublist _)

theorem pairwise_applyFilters_of_sort (compareFn : Product → Product → ℚ)
    (hc : Consistent compareFn) (r : Product → Product → Prop)
    (hr : ∀ a b, compareFn a b ≤ 0 → r a b) (l : List Product) :
    (sort compareFn l).Pairwise r ∧ (sort compareFn l).Chain' r := by
  have h := (pairwise_sort compareFn hc l).imp (fun {a b} hab => hr a b hab)
  exact ⟨h, h.chain'⟩

/-- C2: for each of the sort keys price-low, price-high, rating and newest
the output of `applyFilters` is ordered by the key: price never decreases
(price-low), price never increases (price-high), rating never increases
(rating), creation time never increases (newest), from each element to the
next one and hence between every two positions. -/
theorem applyFilters_ordered (products : List Product) (filters : Filters) :
    ((applyFilters products filters "price-low").Pairwise (fun a b => a.price ≤ b.price) ∧
      (applyFilters products filters "price-low").Chain' (fun a b => a.price ≤ b.price)) ∧
    ((applyFilters products filters "price-high").Pairwise (fun a b => b.price ≤ a.price) ∧
      (applyFilters products filters "price-high").Chain' (fun a b => b.price ≤ a.price)) ∧
    ((applyFilters products filters "rating").Pairwise (fun a b => b.rating ≤ a.rating) ∧
      (applyFilters products filters "rating").Chain' (fun a b => b.rating ≤ a.rating)) ∧
    ((applyFilters products filters "newest").Pairwise (fun a b => b.created_at ≤ a.created_at) ∧
      (applyFilters products filters "newest").Chain' (fun a b => b.created_at ≤ a.created_at)) := by
  refine ⟨?_, ?_, ?_, ?_⟩
  · exact pairwise_applyFilters_of_sort _ consistent_price_low _
      (fun a b h => by linarith) _
  · exact pairwise_applyFilters_of_sort _ consistent_price_high _
      (fun a b h => by linarith) _
  · exact pairwise_applyFilters_of_sort _ consistent_rating _
      (fun a b h => by linarith) _
  · exact pairwise_applyFilters_of_sort _ consistent_newest _
      (fun a b h => (newest_le_iff a b).mp h) _

/-- C3: for each of the sort keys price-low, price-high, rating and newest
the sort of `applyFilters` is stable: products that tie on the sort key stand
in the output in the order the filtered, unsorted list gives them, and that
list is a sublist of the input, so it is the order of the input. -/
theorem applyFilters_stable (products : List Product) (filters : Filters) :
    KeepsTieOrder (fun p => p.price) (filterProducts products filters)
      (applyFilters products filters "price-low") ∧
    KeepsTieOrder (fun p => p.price) (filterProducts products filters)
      (applyFilters products filters "price-high") ∧
    KeepsTieOrder (fun p => p.rating) (filterProducts products filters)
      (applyFilters products filters "rating") ∧
    KeepsTieOrder (fun p => p.created_at) (filterProducts products filters)
      (applyFilters products filters "newest") ∧
    (filterProducts products filters).Sublist products := by
  refine ⟨?_, ?_, ?_, ?_, ?_⟩
  · exact keepsTieOrder_sort _ _ (fun a b h => by rw [h]; simp) _
  · exact keepsTieOrder_sort _ _ (fun a b h => by rw [h]; simp) _
  · exact keepsTieOrder_sort _ _ (fun a b h => by rw [h]; simp) _
  · exact keepsTieOrder_sort _ _ (fun a b h => by rw [h]; simp) _
  · rw [filterProducts_eq_filter]
    exact List.filter_sublist products

/-- C4: with sort key featured no product that is not featured stands before
a featured one, inside the featured group and inside the other group the
rating never increases, products that tie on flag and rating keep their
filtered order, and the products A (featured, 4.0), B (not featured, 5.0),
C (featured, 4.5) come out as C, A, B. -/
theorem applyFilters_featured (products : List Product) (filters : Filters) :
    (applyFilters products filters "featured").Pairwise
      (fun a b => b.is_featured = true → a.is_featured = true) ∧
    (applyFilters products filters "featured").Pairwise
      (fun a b => a.is_featured = b.is_featured → b.rating ≤ a.rating) ∧
    KeepsTieOrder (fun p => (p.is_featured, p.rating)) (filterProducts products filters)
      (applyFilters products filters "featured") ∧
    applyFilters [sampleProduct "A" true 4, sampleProduct "B" false 5, sampleProduct "C" true (9 / 2)]
        noFilters "featured" =
      [sampleProduct "C" true (9 / 2), sampleProduct "A" true 4, sampleProduct "B" false 5] := by
  have h := pairwise_sort featuredCompare consistent_featured (filterProducts products filters)
  refine ⟨?_, ?_, ?_, ?_⟩
  · exact h.imp (fun {a b} hab => ((featuredCompare_le_iff a b).mp hab).1)
  · exact h.imp (fun {a b} hab => ((featuredCompare_le_iff a b).mp hab).2)
  · refine keepsTieOrder_sort _ _ (fun a b hab => ?_) _
    rw [featuredCompare_le_iff]
    simp only [Prod.mk.injEq] at hab
    rw [hab.1, hab.2]
    simp
  · simp [applyFilters, filterProducts, noFilters, sortProducts, sort, insertBy, featuredCompare,
      sampleProduct]
    norm_num

/-- C5: `applyFilters` is idempotent: run again on its own output with the
same criteria and sort key, it returns that output unchanged. -/
theorem applyFilters_idempotent (products : List Product) (filters : Filters)
    (sortBy : String) :
    applyFilters (applyFilters products filters sortBy) filters sortBy =
      applyFilters products filters sortBy := by
  obtain ⟨compareFn, hc, hsort⟩ := sortProducts_eq_sort sortBy
  unfold applyFilters
  rw [hsort, hsort, filterProducts_eq_filter, filterProducts_eq_filter]
  rw [filter_sort_of_forall compareFn _ _ (fun z hz => (List.mem_filter.mp hz).2)]
  exact sort_sort compareFn hc _

/-! ## Price bounds -/

theorem mem_applyFilters (products : List Product) (filters : Filters) (sortBy : String)
    (p : Product) :
    p ∈ applyFilters products filters sortBy ↔ p ∈ products ∧ matchesCriteria filters p = true := by
  have hperm : (applyFilters products filters sortBy).Perm
      (products.filter (matchesCriteria filters)) := by
    unfold applyFilters
    rw [← filterProducts_eq_filter]
    exact sortProducts_perm _ _
  rw [hperm.mem_iff, List.mem_filter]

theorem matchesCriteria_price (filters : Filters) (p : Product) :
    matchesCriteria filters p = true ↔
      matchesCriteria { filters with minPrice := "", maxPrice := "" } p = true ∧
      (filters.minPrice ≠ "" → JSNumber.geOf p.price (parseFloat filters.minPrice) = true) ∧
      (filters.maxPrice ≠ "" → JSNumber.leOf p.price (parseFloat filters.maxPrice) = true) := by
  unfold matchesCriteria
  by_cases h4 : filters.minPrice = "" <;> by_cases h5 : filters.maxPrice = "" <;>
    simp [h4, h5, and_assoc]

theorem parseFloat_five : parseFloat "5" = JSNumber.fin 5 := by
  simp [parseFloat, unsignedLiteral, isTrimmed, scale10, digitsValue, exponentPart]

theorem parseFloat_fifteen : parseFloat "15" = JSNumber.fin 15 := by
  simp [parseFloat, unsignedLiteral, isTrimmed, scale10, digitsValue, exponentPart]

/-- C6: the price bounds are inclusive.  When the bounds that are set parse
to the numbers `lo` and `hi`, a product is in the output exactly when it is
an input product that matches the other criteria and has `lo <= price` (if
the lower bound is set) and `price <= hi` (if the upper bound is set); so a
product priced exactly at a bound is kept.  With category lips, minPrice 5
and maxPrice 15 the output holds exactly the lips products priced from 5 to
15. -/
theorem applyFilters_price_inclusive (products : List Product) (filters : Filters)
    (sortBy : String) (lo hi : ℚ)
    (hlo : filters.minPrice ≠ "" → parseFloat filters.minPrice = JSNumber.fin lo)
    (hhi : filters.maxPrice ≠ "" → parseFloat filters.maxPrice = JSNumber.fin hi) :
    (∀ p, p ∈ applyFilters products filters sortBy ↔
      p ∈ applyFilters products { filters with minPrice := "", maxPrice := "" } sortBy ∧
      (filters.minPrice ≠ "" → lo ≤ p.price) ∧ (filters.maxPrice ≠ "" → p.price ≤ hi)) ∧
    (∀ p, p ∈ applyFilters products { filters with minPrice := "", maxPrice := "" } sortBy →
      (p.price = lo ∧ (filters.maxPrice ≠ "" → lo ≤ hi)) ∨
        (p.price = hi ∧ (filters.minPrice ≠ "" → lo ≤ hi)) →
      p ∈ applyFilters products filters sortBy) ∧
    (∀ p, p ∈ applyFilters products lipsFilters sortBy ↔
      p ∈ products ∧ p.category = "lips" ∧ 5 ≤ p.price ∧ p.price ≤ 15) := by
  have hiff : ∀ p, p ∈ applyFilters products filters sortBy ↔
      p ∈ applyFilters products { filters with minPrice := "", maxPrice := "" } sortBy ∧
      (filters.minPrice ≠ "" → lo ≤ p.price) ∧ (filters.maxPrice ≠ "" → p.price ≤ hi) := by
    intro p
    rw [mem_applyFilters, mem_applyFilters, matchesCriteria_price, and_assoc]
    have h1 : (filters.minPrice ≠ "" → JSNumber.geOf p.price (parseFloat filters.minPrice) = true) ↔
        (filters.minPrice ≠ "" → lo ≤ p.price) := by
      refine forall_congr' (fun h => ?_)
      rw [hlo h]
      simp [JSNumber.geOf]
    have h2 : (filters.maxPrice ≠ "" → JSNumber.leOf p.price (parseFloat filters.maxPrice) = true) ↔
        (filters.maxPrice ≠ "" → p.price ≤ hi) := by
      refine forall_congr' (fun h => ?_)
      rw [hhi h]
      simp [JSNumber.leOf]
    rw [h1, h2]
  refine ⟨hiff, ?_, ?_⟩
  · intro p hp hb
    rw [hiff]
    refine ⟨hp, ?_, ?_⟩
    · intro h
      rcases hb with ⟨h1, _⟩ | ⟨h1, h2⟩
      · exact le_of_eq h1.symm
      · rw [h1]; exact h2 h
    · intro h
      rcases hb with ⟨h1, h2⟩ | ⟨h1, _⟩
      · rw [h1]; exact h2 h
      · exact le_of_eq h1
  · intro p
    rw [mem_applyFilters]
    simp [matchesCriteria, lipsFilters, parseFloat_five, parseFloat_fifteen, JSNumber.geOf,
      JSNumber.leOf, and_assoc]

/-- The inclusive bounds at the scenario's criteria and a three-product
catalogue: the lips products priced 5 and 15 are kept, the lips product
priced 16 and the eyes product are not. -/
theorem applyFilters_price_inclusive_witness :
    parseFloat lipsFilters.minPrice = JSNumber.fin 5 ∧
    parseFloat lipsFilters.maxPrice = JSNumber.fin 15 ∧
    (pricedProduct "a" "lips" 5 ∈
      applyFilters [pricedProduct "a" "lips" 5, pricedProduct "b" "lips" 16,
        pricedProduct "c" "eyes" 10, pricedProduct "d" "lips" 15] lipsFilters "price-low") ∧
    (pricedProduct "d" "lips" 15 ∈
      applyFilters [pricedProduct "a" "lips" 5, pricedProduct "b" "lips" 16,
        pricedProduct "c" "eyes" 10, pricedProduct "d" "lips" 15] lipsFilters "price-low") ∧
    (pricedProduct "b" "lips" 16 ∉
      applyFilters [pricedProduct "a" "lips" 5, pricedProduct "b" "lips" 16,
        pricedProduct "c" "eyes" 10, pricedProduct "d" "lips" 15] lipsFilters "price-low") ∧
    (pricedProduct "c" "eyes" 10 ∉
      applyFilters [pricedProduct "a" "lips" 5, pricedProduct "b" "lips" 16,
        pricedProduct "c" "eyes" 10, pricedProduct "d" "lips" 15] lipsFilters "price-low") := by
  have h := (applyFilters_price_inclusive
    [pricedProduct "a" "lips" 5, pricedProduct "b" "lips" 16,
      pricedProduct "c" "eyes" 10, pricedProduct "d" "lips" 15] lipsFilters "price-low" 5 15
    (fun _ => parseFloat_five) (fun _ => parseFloat_fifteen)).2.2
  refine ⟨parseFloat_five, parseFloat_fifteen, ?_, ?_, ?_, ?_⟩
  · rw [h]; norm_num [pricedProduct]
  · rw [h]; norm_num [pricedProduct]
  · rw [h]; norm_num [pricedProduct]
  · rw [h]; simp [pricedProduct]

theorem parseFloat_abc : parseFloat "abc" = JSNumber.nan := by
  simp [parseFloat, unsignedLiteral, isTrimmed]

theorem isDigit_bounds (c : Char) (h : c.isDigit = true) : 48 ≤ c.toNat ∧ c.toNat ≤ 57 := by
  simp only [Char.isDigit, Bool.and_eq_true, decide_eq_true_eq, ge_iff_le] at h
  exact ⟨h.1, h.2⟩

theorem isDigit_head (c : Char) (h : c.isDigit = true) :
    c ≠ '-' ∧ c ≠ '+' ∧ c ≠ 'I' ∧ isTrimmed c = false := by
  obtain ⟨h1, h2⟩ := isDigit_bounds c h
  have hc : c = Char.ofNat c.toNat := (Char.ofNat_toNat c).symm
  rw [hc]
  generalize c.toNat = n at h1 h2
  interval_cases n <;> decide

theorem validUnsigned_head (cs : List Char) (h : validUnsigned cs = true) :
    ∃ c rest, cs = c :: rest ∧ (c.isDigit = true ∨ c = '.') := by
  cases cs with
  | nil => simp [validUnsigned] at h
  | cons c rest =>
    refine ⟨c, rest, rfl, ?_⟩
    by_cases hd : c.isDigit = true
    · exact Or.inl hd
    · right
      have hdw : (c :: rest).dropWhile Char.isDigit = c :: rest := by
        simp [List.dropWhile, hd]
      have htw : (c :: rest).takeWhile Char.isDigit = [] := by
        simp [List.takeWhile, hd]
      unfold validUnsigned at h
      rw [hdw, htw] at h
      by_contra hne
      split at h
      · rename_i r heq
        injection heq with h1 _
        exact hne h1
      · simp at h

theorem unsignedLiteral_of_valid (cs : List Char) (h : validUnsigned cs = true) :
    ∃ q, unsignedLiteral cs = some (some q) := by
  obtain ⟨c, rest, hcs, hc⟩ := validUnsigned_head cs h
  have hinf : ¬ ("Infinity".data <+: cs) := by
    rintro ⟨t, ht⟩
    rw [hcs] at ht
    have hI : c = 'I' := by
      have := congrArg List.head? ht
      simp at this
      exact this.symm
    rcases hc with hc | hc
    · exact (isDigit_head c hc).2.2.1 hI
    · rw [hc] at hI
      exact absurd hI (by decide)
  unfold unsignedLiteral
  rw [if_neg hinf]
  unfold validUnsigned at h
  dsimp only
  split at h
  · simp only [Bool.and_eq_true, Bool.not_eq_true'] at h
    simp [h.1]
  · simp only [Bool.and_eq_true, Bool.not_eq_true'] at h
    simp [h.1]

theorem parseFloat_of_valid (s : String) (h : isValidFloatingPointNumber s.data = true) :
    ∃ q, parseFloat s = JSNumber.fin q := by
  unfold isValidFloatingPointNumber at h
  split at h
  · rename_i rest heq
    obtain ⟨q, hq⟩ := unsignedLiteral_of_valid rest h
    refine ⟨-q, ?_⟩
    unfold parseFloat
    rw [heq]
    have ht : isTrimmed '-' = false := by decide
    have : List.dropWhile isTrimmed ('-' :: rest) = '-' :: rest := by
      simp [List.dropWhile, ht]
    rw [this]
    simp [hq]
  · rename_i hne
    obtain ⟨q, hq⟩ := unsignedLiteral_of_valid s.data h
    obtain ⟨c, rest, hcs, hc⟩ := validUnsigned_head s.data h
    refine ⟨q, ?_⟩
    have htrim : isTrimmed c = false := by
      rcases hc with hc | hc
      · exact (isDigit_head c hc).2.2.2
      · rw [hc]; decide
    have hminus : c ≠ '-' := by
      intro hm
      exact hne rest (by rw [hcs, hm])
    have hplus : c ≠ '+' := by
      rcases hc with hc | hc
      · exact (isDigit_head c hc).2.1
      · rw [hc]; decide
    unfold parseFloat
    rw [hcs] at hq ⊢
    have : List.dropWhile isTrimmed (c :: rest) = c :: rest := by
      simp [List.dropWhile, htrim]
    rw [this]
    split
    · rename_i cs' heq
      injection heq with h1 _
      exact absurd h1 hminus
    · rename_i cs' heq
      injection heq with h1 _
      exact absurd h1 hplus
    · simp [hq]

theorem numberInputValue_of_nan (typed : String) (h : parseFloat typed = JSNumber.nan) :
    numberInputValue typed = "" := by
  unfold numberInputValue
  by_cases hv : isValidFloatingPointNumber typed.data = true
  · obtain ⟨q, hq⟩ := parseFloat_of_valid typed hv
    rw [hq] at h
    exact absurd h (by simp)
  · rw [if_neg hv]

theorem numberInputValue_parses (typed : String) :
    numberInputValue typed = "" ∨ ∃ q, parseFloat (numberInputValue typed) = JSNumber.fin q := by
  unfold numberInputValue
  by_cases hv : isValidFloatingPointNumber typed.data = true
  · rw [if_pos hv]
    exact Or.inr (parseFloat_of_valid typed hv)
  · rw [if_neg hv]
    exact Or.inl rfl

theorem filterStep_bounds (filters : Filters) (ev : FilterEvent)
    (hmin : filters.minPrice = "" ∨ ∃ q, parseFloat filters.minPrice = JSNumber.fin q)
    (hmax : filters.maxPrice = "" ∨ ∃ q, parseFloat filters.maxPrice = JSNumber.fin q) :
    ((filterStep filters ev).minPrice = "" ∨
      ∃ q, parseFloat (filterStep filters ev).minPrice = JSNumber.fin q) ∧
    ((filterStep filters ev).maxPrice = "" ∨
      ∃ q, parseFloat (filterStep filters ev).maxPrice = JSNumber.fin q) := by
  cases ev with
  | search typed => exact ⟨hmin, hmax⟩
  | category value => exact ⟨hmin, hmax⟩
  | skinType value => exact ⟨hmin, hmax⟩
  | minPrice typed => exact ⟨numberInputValue_parses typed, hmax⟩
  | maxPrice typed => exact ⟨hmin, numberInputValue_parses typed⟩
  | clear => exact ⟨Or.inl rfl, Or.inl rfl⟩

theorem foldl_filterStep_bounds (events : List FilterEvent) (filters : Filters)
    (hmin : filters.minPrice = "" ∨ ∃ q, parseFloat filters.minPrice = JSNumber.fin q)
    (hmax : filters.maxPrice = "" ∨ ∃ q, parseFloat filters.maxPrice = JSNumber.fin q) :
    ((events.foldl filterStep filters).minPrice = "" ∨
      ∃ q, parseFloat (events.foldl filterStep filters).minPrice = JSNumber.fin q) ∧
    ((events.foldl filterStep filters).maxPrice = "" ∨
      ∃ q, parseFloat (events.foldl filterStep filters).maxPrice = JSNumber.fin q) := by
  induction events generalizing filters with
  | nil => exact ⟨hmin, hmax⟩
  | cons ev rest ih =>
    have h := filterStep_bounds filters ev hmin hmax
    exact ih (filterStep filters ev) h.1 h.2

/-- C7: an unparseable price bound is treated as absent.  A text typed into
the minimum or the maximum price field that does not parse as a number
reaches `filters` as the empty string, so the output of `applyFilters` is the
output with that bound left empty; and in every state of `filters` that the
controls can produce each bound is empty or parses to a number, so no
comparison with `NaN` is ever made. -/
theorem applyFilters_unparseable_entry (products : List Product) (filters : Filters)
    (sortBy : String) (typed : String) (h : parseFloat typed = JSNumber.nan) :
    (filterStep filters (FilterEvent.minPrice typed)).minPrice = "" ∧
    applyFilters products (filterStep filters (FilterEvent.minPrice typed)) sortBy =
      applyFilters products { filters with minPrice := "" } sortBy ∧
    (filterStep filters (FilterEvent.maxPrice typed)).maxPrice = "" ∧
    applyFilters products (filterStep filters (FilterEvent.maxPrice typed)) sortBy =
      applyFilters products { filters with maxPrice := "" } sortBy ∧
    (∀ category search events,
      ((filtersAfter category search events).minPrice = "" ∨
        ∃ q, parseFloat (filtersAfter category search events).minPrice = JSNumber.fin q) ∧
      ((filtersAfter category search events).maxPrice = "" ∨
        ∃ q, parseFloat (filtersAfter category search events).maxPrice = JSNumber.fin q)) := by
  have hv := numberInputValue_of_nan typed h
  have hmin : filterStep filters (FilterEvent.minPrice typed) = { filters with minPrice := "" } := by
    simp [filterStep, handleFilterChange, hv]
  have hmax : filterStep filters (FilterEvent.maxPrice typed) = { filters with maxPrice := "" } := by
    simp [filterStep, handleFilterChange, hv]
  refine ⟨by rw [hmin], by rw [hmin], by rw [hmax], by rw [hmax], fun category search events => ?_⟩
  exact foldl_filterStep_bounds events (initialFilters category search) (Or.inl rfl) (Or.inl rfl)

/-- C7 at the text `abc` typed into the minimum price field, with the
category lips chosen before: the price field hands over the empty string and
the lips product stays in the output; and the text `12.5` is handed over as
it is and parses. -/
theorem applyFilters_unparseable_entry_witness :
    parseFloat "abc" = JSNumber.nan ∧
    numberInputValue "abc" = "" ∧
    numberInputValue "12.5" = "12.5" ∧
    applyFilters [pricedProduct "a" "lips" 5, pricedProduct "c" "eyes" 10]
        (filterStep (initialFilters "lips" "") (FilterEvent.minPrice "abc")) "featured" =
      [pricedProduct "a" "lips" 5] := by
  have h := applyFilters_unparseable_entry [pricedProduct "a" "lips" 5, pricedProduct "c" "eyes" 10]
    (initialFilters "lips" "") "featured" "abc" parseFloat_abc
  refine ⟨parseFloat_abc, by decide, by decide, ?_⟩
  rw [h.2.1]
  simp [applyFilters, applyFiltersWith, filterProducts, filterProductsWith, initialFilters,
    pricedProduct, sortProducts, sort, insertBy]

/-! ## Search -/

theorem matchesCriteria_search (filters : Filters) (p : Product) (hs : filters.search ≠ "") :
    matchesCriteria filters p = true ↔
      matchesCriteria { filters with search := "" } p = true ∧
      searchMatches filters.search p = true := by
  unfold matchesCriteria
  simp [hs, and_assoc, and_comm, and_left_comm]

theorem searchMatches_eq_with : searchMatches = searchMatchesWith toLowerCase := rfl

theorem applyFilters_eq_with : applyFilters = applyFiltersWith toLowerCase := rfl

theorem filterProductsWith_eq_filter (lower : String → String) (products : List Product)
    (filters : Filters) :
    filterProductsWith lower products filters =
      products.filter (matchesCriteriaWith lower filters) := by
  unfold filterProductsWith
  dsimp only
  rw [filter_when, filter_when, filter_when, filter_when, filter_when]
  simp only [List.filter_filter]
  congr 1
  funext p
  unfold matchesCriteriaWith
  generalize (filters.search == "" || searchMatchesWith lower filters.search p) = b1
  generalize (filters.category == "" || p.category == filters.category) = b2
  generalize (filters.skinType == "" || p.skin_types.contains filters.skinType) = b3
  generalize (filters.minPrice == "" || JSNumber.geOf p.price (parseFloat filters.minPrice)) = b4
  generalize (filters.maxPrice == "" || JSNumber.leOf p.price (parseFloat filters.maxPrice)) = b5
  cases b1 <;> cases b2 <;> cases b3 <;> cases b4 <;> cases b5 <;> rfl

theorem mem_applyFiltersWith (lower : String → String) (products : List Product)
    (filters : Filters) (sortBy : String) (p : Product) :
    p ∈ applyFiltersWith lower products filters sortBy ↔
      p ∈ products ∧ matchesCriteriaWith lower filters p = true := by
  have hperm : (applyFiltersWith lower products filters sortBy).Perm
      (products.filter (matchesCriteriaWith lower filters)) := by
    unfold applyFiltersWith
    rw [← filterProductsWith_eq_filter]
    exact sortProducts_perm _ _
  rw [hperm.mem_iff, List.mem_filter]

theorem matchesCriteriaWith_search (lower : String → String) (filters : Filters) (p : Product)
    (hs : filters.search ≠ "") :
    matchesCriteriaWith lower filters p = true ↔
      matchesCriteriaWith lower { filters with search := "" } p = true ∧
      searchMatchesWith lower filters.search p = true := by
  unfold matchesCriteriaWith
  simp [hs, and_assoc, and_comm, and_left_comm]

theorem searchMatchesWith_iff (lower : String → String) (s : String) (p : Product) :
    searchMatchesWith lower s p = true ↔
      (lower s).data <:+: (lower p.name).data ∨
      (lower s).data <:+: (lower p.description).data ∨
      (lower s).data <:+: (lower p.short_description).data := by
  simp [searchMatchesWith, includes, or_assoc]

theorem searchMatchesWith_congr (lower : String → String) (s s' : String) (p p' : Product)
    (hs : lower s' = lower s) (hn : lower p'.name = lower p.name)
    (hd : lower p'.description = lower p.description)
    (hsd : lower p'.short_description = lower p.short_description) :
    searchMatchesWith lower s' p' = searchMatchesWith lower s p := by
  unfold searchMatchesWith
  rw [hs, hn, hd, hsd]

theorem applyFiltersWith_search_congr (lower : String → String) (products : List Product)
    (filters : Filters) (sortBy : String) (s' : String) (hs : lower s' = lower filters.search)
    (he : s' = "" ↔ filters.search = "") :
    applyFiltersWith lower products { filters with search := s' } sortBy =
      applyFiltersWith lower products filters sortBy := by
  unfold applyFiltersWith
  rw [filterProductsWith_eq_filter, filterProductsWith_eq_filter]
  congr 2
  funext p
  unfold matchesCriteriaWith
  have h1 : searchMatchesWith lower s' p = searchMatchesWith lower filters.search p :=
    searchMatchesWith_congr lower _ _ p p hs rfl rfl rfl
  have h2 : (s' == "") = (filters.search == "") := by
    by_cases h : filters.search = ""
    · simp [h, he.mpr h]
    · have h' : ¬ s' = "" := fun hh => h (he.mp hh)
      simp [h, h']
  simp only [h1, h2]

/-- C8, as stated, fails: the product named `Weiße Rose` is shown for the
search text `weiße`, and is not shown once the search text is put in upper
case, `WEISSE`, whose lowercase form is `weisse`. -/
theorem applyFilters_search_case_counterexample :
    toUpperCase "weiße" = "WEISSE" ∧
    applyFilters [textProduct "Weiße Rose" "" ""] (searchFilters "weiße") "featured" =
      [textProduct "Weiße Rose" "" ""] ∧
    applyFilters [textProduct "Weiße Rose" "" ""] (searchFilters (toUpperCase "weiße"))
      "featured" = [] := by
  have hup : toUpperCase "weiße" = "WEISSE" := by decide
  have h1 : searchMatches "weiße" (textProduct "Weiße Rose" "" "") = true := by decide
  have h2 : searchMatches "WEISSE" (textProduct "Weiße Rose" "" "") = false := by decide
  refine ⟨hup, ?_, ?_⟩
  · simp [applyFilters, filterProducts, searchFilters, sortProducts, sort, insertBy, h1]
  · rw [hup]
    apply List.eq_nil_iff_forall_not_mem.mpr
    intro p hp
    rw [mem_applyFilters, matchesCriteria_search _ _ (by decide)] at hp
    obtain ⟨hmem, _, hmatch⟩ := hp
    rw [List.mem_singleton] at hmem
    rw [hmem] at hmatch
    exact absurd (h2 ▸ hmatch : false = true) (by decide)

/-- C8, amended: the search criterion is a substring match on lowercased text
in which a match in any one field qualifies.  Whatever lowercase mapping
`lower` the engine applies, for a non-empty search text a product is in the
output exactly when it passes the other criteria and the lowercase form of
the search text is a contiguous part of the lowercase form of the name, of
the description or of the short description.  So the search text and the
fields count only through their lowercase forms: a search text or fields with
the same lowercase forms give the same result.  `applyFilters` is the
function at the mapping `toLowerCase`. -/
theorem applyFiltersWith_search (lower : String → String) (products : List Product)
    (filters : Filters) (sortBy : String) (hs : filters.search ≠ "") :
    (∀ p, p ∈ applyFiltersWith lower products filters sortBy ↔
      p ∈ applyFiltersWith lower products { filters with search := "" } sortBy ∧
      ((lower filters.search).data <:+: (lower p.name).data ∨
        (lower filters.search).data <:+: (lower p.description).data ∨
        (lower filters.search).data <:+: (lower p.short_description).data)) ∧
    (∀ s', s' ≠ "" → lower s' = lower filters.search →
      applyFiltersWith lower products { filters with search := s' } sortBy =
        applyFiltersWith lower products filters sortBy) ∧
    (∀ s' p p', lower s' = lower filters.search →
      lower p'.name = lower p.name →
      lower p'.description = lower p.description →
      lower p'.short_description = lower p.short_description →
      searchMatchesWith lower s' p' = searchMatchesWith lower filters.search p) ∧
    applyFilters products filters sortBy = applyFiltersWith toLowerCase products filters sortBy := by
  refine ⟨fun p => ?_, fun s' hne heq => ?_, fun s' p p' h1 h2 h3 h4 => ?_, rfl⟩
  · rw [mem_applyFiltersWith, mem_applyFiltersWith, matchesCriteriaWith_search lower filters p hs,
      searchMatchesWith_iff, and_assoc]
  · exact applyFiltersWith_search_congr lower products filters sortBy s' heq
      ⟨fun h => absurd h hne, fun h => absurd h hs⟩
  · exact searchMatchesWith_congr lower _ _ _ _ h1 h2 h3 h4

/-- The amended C8 at the mapping `toLowerCase`, the search text `LIP` and a
catalogue of two products: the one named `Rose Lip Balm` is shown, the one
that has no `lip` in any field is not, and the search text `lip` gives the
same output. -/
theorem applyFiltersWith_search_witness :
    (searchFilters "LIP").search ≠ "" ∧
    textProduct "Rose Lip Balm" "A balm." "Balm" ∈
      applyFilters [textProduct "Rose Lip Balm" "A balm." "Balm", textProduct "Mascara" "Black." "Eyes"]
        (searchFilters "LIP") "featured" ∧
    textProduct "Mascara" "Black." "Eyes" ∉
      applyFilters [textProduct "Rose Lip Balm" "A balm." "Balm", textProduct "Mascara" "Black." "Eyes"]
        (searchFilters "LIP") "featured" ∧
    applyFilters [textProduct "Rose Lip Balm" "A balm." "Balm", textProduct "Mascara" "Black." "Eyes"]
        (searchFilters "lip") "featured" =
      applyFilters [textProduct "Rose Lip Balm" "A balm." "Balm", textProduct "Mascara" "Black." "Eyes"]
        (searchFilters "LIP") "featured" := by
  have hall := applyFiltersWith_search toLowerCase
    [textProduct "Rose Lip Balm" "A balm." "Balm", textProduct "Mascara" "Black." "Eyes"]
    (searchFilters "LIP") "featured" (by decide)
  have h := hall.1
  refine ⟨by decide, ?_, ?_, hall.2.1 "lip" (by decide) (by decide)⟩
  · rw [applyFilters_eq_with, h, mem_applyFiltersWith]
    refine ⟨⟨by simp, by simp [matchesCriteriaWith, searchFilters]⟩, Or.inl ?_⟩
    decide
  · rw [applyFilters_eq_with, h]
    rintro ⟨_, hh⟩
    rcases hh with hh | hh | hh <;> revert hh <;> decide

/-- C9, as stated, fails: for the product named `ab` with description `cd`
and the search text `bc`, the text occurs in the concatenation `abcd` of the
fields, yet it occurs in no single field and the product is filtered out. -/
theorem applyFilters_search_concat_counterexample :
    searchMatchesConcat "bc" (textProduct "ab" "cd" "") = true ∧
    searchMatches "bc" (textProduct "ab" "cd" "") = false ∧
    applyFilters [textProduct "ab" "cd" ""] (searchFilters "bc") "featured" = [] := by
  have h1 : searchMatchesConcat "bc" (textProduct "ab" "cd" "") = true := by decide
  have h2 : searchMatches "bc" (textProduct "ab" "cd" "") = false := by decide
  refine ⟨h1, h2, ?_⟩
  apply List.eq_nil_iff_forall_not_mem.mpr
  intro p hp
  rw [mem_applyFilters, matchesCriteria_search _ _ (by decide)] at hp
  obtain ⟨hmem, _, hmatch⟩ := hp
  rw [List.mem_singleton] at hmem
  rw [hmem] at hmatch
  exact absurd (h2 ▸ hmatch : false = true) (by decide)

/-- C9, amended: the search criterion looks in each of the three text fields
separately, not in their concatenation.  Whatever lowercase mapping `lower`
the engine applies, for a non-empty search text: every product of the output
has the lowercase form of the search text as a contiguous part of one
lowercased field, and so of the three lowercased fields put one after the
other; and a product in which it is a contiguous part of no single lowercased
field is not in the output, wherever else the text may be found, across the
border of two fields included. -/
theorem applyFiltersWith_search_fields (lower : String → String) (products : List Product)
    (filters : Filters) (sortBy : String) (hs : filters.search ≠ "") :
    (∀ p, p ∈ applyFiltersWith lower products filters sortBy →
      searchMatchesWith lower filters.search p = true ∧
      (lower filters.search).data <:+:
        (lower p.name).data ++ (lower p.description).data ++ (lower p.short_description).data) ∧
    (∀ p, ¬ (lower filters.search).data <:+: (lower p.name).data →
      ¬ (lower filters.search).data <:+: (lower p.description).data →
      ¬ (lower filters.search).data <:+: (lower p.short_description).data →
      p ∉ applyFiltersWith lower products filters sortBy) ∧
    applyFilters products filters sortBy = applyFiltersWith toLowerCase products filters sortBy := by
  refine ⟨fun p hp => ?_, fun p h1 h2 h3 hp => ?_, rfl⟩
  · rw [mem_applyFiltersWith, matchesCriteriaWith_search lower filters p hs] at hp
    refine ⟨hp.2.2, ?_⟩
    rcases (searchMatchesWith_iff lower _ _).mp hp.2.2 with ⟨u, v, h⟩ | ⟨u, v, h⟩ | ⟨u, v, h⟩
    · exact ⟨u, v ++ (lower p.description).data ++ (lower p.short_description).data,
        by simp [← h]⟩
    · exact ⟨(lower p.name).data ++ u, v ++ (lower p.short_description).data, by simp [← h]⟩
    · exact ⟨(lower p.name).data ++ (lower p.description).data ++ u, v, by simp [← h]⟩
  · rw [mem_applyFiltersWith, matchesCriteriaWith_search lower filters p hs] at hp
    rcases (searchMatchesWith_iff lower _ _).mp hp.2.2 with h | h | h
    · exact h1 h
    · exact h2 h
    · exact h3 h

/-- The amended C9 at the mapping `toLowerCase`: the product named
`Rose Lip Balm` is shown for the search text `LIP`, and the product named
`ab` with description `cd` is not shown for the search text `bc`, which is
found only across the border of the two fields. -/
theorem applyFiltersWith_search_fields_witness :
    (searchFilters "LIP").search ≠ "" ∧
    searchMatchesWith toLowerCase "LIP" (textProduct "Rose Lip Balm" "A balm." "Balm") = true ∧
    textProduct "ab" "cd" "" ∉
      applyFiltersWith toLowerCase [textProduct "ab" "cd" ""] (searchFilters "bc") "featured" := by
  have hmem : textProduct "Rose Lip Balm" "A balm." "Balm" ∈
      applyFiltersWith toLowerCase [textProduct "Rose Lip Balm" "A balm." "Balm"]
        (searchFilters "LIP") "featured" := by
    rw [mem_applyFiltersWith, matchesCriteriaWith_search _ _ _ (by decide)]
    refine ⟨by simp, by simp [matchesCriteriaWith, searchFilters], ?_⟩
    decide
  exact ⟨by decide,
    ((applyFiltersWith_search_fields toLowerCase [textProduct "Rose Lip Balm" "A balm." "Balm"]
      (searchFilters "LIP") "featured" (by decide)).1 _ hmem).1,
    (applyFiltersWith_search_fields toLowerCase [textProduct "ab" "cd" ""]
      (searchFilters "bc") "featured" (by decide)).2.1 _ (by decide) (by decide) (by decide)⟩

/-! ## Absence of faults -/

theorem map_insertBy {α β : Type} (f : α → β) (ca : α → α → ℚ) (cb : β → β → ℚ)
    (h : ∀ a b, cb (f a) (f b) = ca a b) (x : α) (l : List α) :
    insertBy cb (f x) (l.map f) = (insertBy ca x l).map f := by
  induction l with
  | nil => rfl
  | cons y ys ih =>
    simp only [List.map_cons, insertBy, h]
    split
    · rfl
    · rw [List.map_cons, ih]

theorem map_sort {α β : Type} (f : α → β) (ca : α → α → ℚ) (cb : β → β → ℚ)
    (h : ∀ a b, cb (f a) (f b) = ca a b) (l : List α) :
    sort cb (l.map f) = (sort ca l).map f := by
  induction l with
  | nil => rfl
  | cons x xs ih =>
    simp only [List.map_cons, sort]
    rw [ih, map_insertBy f ca cb h]

theorem filterChecked_map {α β : Type} (f : α → β) (q : β → Except Fault Bool) (q' : α → Bool)
    (h : ∀ a, q (f a) = Except.ok (q' a)) (l : List α) :
    filterChecked q (l.map f) = Except.ok ((l.filter q').map f) := by
  induction l with
  | nil => rfl
  | cons x xs ih =>
    simp only [List.map_cons, filterChecked, h, ih, List.filter_cons]
    cases q' x <;> rfl

theorem searchMatchesChecked_toRecord (search : String) (p : Product) :
    searchMatchesChecked search p.toRecord = Except.ok (searchMatches search p) := by
  unfold searchMatchesChecked searchMatches fieldIncludes Product.toRecord
  cases h1 : includes (toLowerCase p.name) (toLowerCase search) <;>
    cases h2 : includes (toLowerCase p.description) (toLowerCase search) <;>
    simp [h1, h2]

theorem sortRecords_map (filtered : List Product) (sortBy : String) :
    sortRecords (filtered.map Product.toRecord) sortBy =
      (sortProducts filtered sortBy).map Product.toRecord := by
  unfold sortRecords sortProducts
  split
  · exact map_sort _ _ _ (fun _ _ => rfl) _
  · exact map_sort _ _ _ (fun _ _ => rfl) _
  · exact map_sort _ _ _ (fun _ _ => rfl) _
  · exact map_sort _ _ _ (fun _ _ => rfl) _
  · exact map_sort _ _ _ (fun _ _ => rfl) _

theorem filter_when_checked (s : String) (q : ProductRecord → Except Fault Bool)
    (q' : Product → Bool) (h : ∀ a, q a.toRecord = Except.ok (q' a)) (l : List Product) :
    (if s ≠ "" then
        (Except.ok (l.map Product.toRecord) : Except Fault (List ProductRecord)).bind
          (filterChecked q)
      else Except.ok (l.map Product.toRecord)) =
      Except.ok ((if s ≠ "" then l.filter q' else l).map Product.toRecord) := by
  by_cases hs : s = ""
  · simp [hs]
  · rw [if_pos hs, if_pos hs]
    exact filterChecked_map _ q q' h l

theorem applyFiltersChecked_toRecord (products : List Product) (filters : Filters)
    (sortBy : String) :
    applyFiltersChecked (products.map Product.toRecord) filters sortBy =
      Except.ok ((applyFilters products filters sortBy).map Product.toRecord) := by
  unfold applyFiltersChecked applyFilters filterProducts
  dsimp only
  rw [filter_when_checked _ _ _ (searchMatchesChecked_toRecord filters.search)]
  rw [filter_when_checked _ _ (fun product => product.category == filters.category)
    (fun _ => rfl)]
  rw [filter_when_checked _ _ (fun product => product.skin_types.contains filters.skinType)
    (fun _ => rfl)]
  rw [filter_when_checked _ _
    (fun product => JSNumber.geOf product.price (parseFloat filters.minPrice)) (fun _ => rfl)]
  rw [filter_when_checked _ _
    (fun product => JSNumber.leOf product.price (parseFloat filters.maxPrice)) (fun _ => rfl)]
  simp only [Except.map, sortRecords_map]

theorem toRecord_toProduct (r : ProductRecord) (h : r.complete = true) :
    r.toProduct.toRecord = r := by
  obtain ⟨id, name, description, short_description, category, skin_types, price, original_price,
    rating, review_count, is_featured, is_new, is_viral, created_at⟩ := r
  cases name <;> cases description <;> cases short_description <;> cases skin_types <;>
    simp_all [ProductRecord.complete, ProductRecord.toProduct, Product.toRecord]

theorem map_toRecord_toProduct (records : List ProductRecord)
    (h : ∀ r ∈ records, r.complete = true) :
    (records.map ProductRecord.toProduct).map Product.toRecord = records := by
  rw [List.map_map]
  conv_rhs => rw [← List.map_id records]
  exact List.map_congr_left (fun r hr => toRecord_toProduct r (h r hr))

/-- A record without a name does make the call throw once a search text is
set: the completeness of the records is what rules the fault out. -/
theorem applyFiltersChecked_nameless :
    applyFiltersChecked [namelessRecord] (searchFilters "cream") "featured" =
      Except.error Fault.typeError := by
  simp [applyFiltersChecked, searchFilters, Except.bind, filterChecked, searchMatchesChecked,
    fieldIncludes, namelessRecord, Except.map]

/-- C10: `applyFilters` has no error condition.  On records that carry the
text fields and the skin-type list the call ends without a fault and returns
a list, the one the typed function computes; on the empty product list the
result is the empty list; and when no product matches the criteria the result
is the empty list. -/
theorem applyFilters_no_fault (filters : Filters) (sortBy : String) :
    (∀ records : List ProductRecord, (∀ r ∈ records, r.complete = true) →
      ∃ out, applyFiltersChecked records filters sortBy = Except.ok out) ∧
    (∀ products : List Product,
      applyFiltersChecked (products.map Product.toRecord) filters sortBy =
        Except.ok ((applyFilters products filters sortBy).map Product.toRecord)) ∧
    applyFiltersChecked [] filters sortBy = Except.ok [] ∧
    applyFilters [] filters sortBy = [] ∧
    (∀ products : List Product, (∀ p ∈ products, matchesCriteria filters p = false) →
      applyFilters products filters sortBy = [] ∧
      applyFiltersChecked (products.map Product.toRecord) filters sortBy = Except.ok []) := by
  have hnil : applyFilters [] filters sortBy = [] :=
    List.eq_nil_iff_forall_not_mem.mpr (fun p hp => by
      rw [mem_applyFilters] at hp
      exact absurd hp.1 (List.not_mem_nil p))
  refine ⟨fun records h => ?_, fun products => applyFiltersChecked_toRecord products filters sortBy,
    ?_, hnil, ?_⟩
  · have hrun := applyFiltersChecked_toRecord (records.map ProductRecord.toProduct) filters sortBy
    rw [map_toRecord_toProduct records h] at hrun
    exact ⟨_, hrun⟩
  · have h := applyFiltersChecked_toRecord [] filters sortBy
    rw [hnil] at h
    exact h
  · intro products h
    have hempty : applyFilters products filters sortBy = [] :=
      List.eq_nil_iff_forall_not_mem.mpr (fun p hp => by
        rw [mem_applyFilters] at hp
        rw [h p hp.1] at hp
        exact absurd hp.2 (by decide))
    refine ⟨hempty, ?_⟩
    rw [applyFiltersChecked_toRecord, hempty]
    rfl

/-! ## Cart aggregation: line items, subtotal, totals, item count -/

theorem findProduct_first (products : List Product) (id : String) (p : Product)
    (h : findProduct products id = some p) :
    ∃ before after, products = before ++ p :: after ∧ p.id = id ∧ ∀ q ∈ before, q.id ≠ id := by
  induction products with
  | nil => simp [findProduct] at h
  | cons x xs ih =>
    unfold findProduct at h
    rw [List.find?_cons] at h
    by_cases hx : x.id = id
    · have hb : (x.id == id) = true := by simpa using hx
      rw [hb] at h
      injection h with h
      subst h
      exact ⟨[], xs, rfl, hx, fun q hq => absurd hq (List.not_mem_nil q)⟩
    · have hb : (x.id == id) = false := by simpa using hx
      rw [hb] at h
      obtain ⟨before, after, h1, h2, h3⟩ := ih h
      refine ⟨x :: before, after, by rw [h1]; rfl, h2, fun q hq => ?_⟩
      rcases List.mem_cons.mp hq with rfl | hq
      · exact hx
      · exact h3 q hq

theorem findProduct_isSome (products : List Product) (item : CartItem) :
    (findProduct products item.product_id).isSome = resolves products item := by
  unfold findProduct resolves
  induction products with
  | nil => rfl
  | cons x xs ih =>
    rw [List.find?_cons, List.any_cons]
    cases hx : (x.id == item.product_id)
    · simpa using ih
    · rfl

theorem cartItemsWithDetails_cons (item : CartItem) (items : List CartItem)
    (products : List Product) :
    cartItemsWithDetails (item :: items) products =
      match findProduct products item.product_id with
      | some p =>
        { id := item.id, product_id := item.product_id, quantity := item.quantity,
          product := some p } :: cartItemsWithDetails items products
      | none => cartItemsWithDetails items products := by
  unfold cartItemsWithDetails
  rw [List.map_cons, List.filter_cons]
  cases h : findProduct products item.product_id <;> simp

theorem lineAmount_of_not_resolves (products : List Product) (item : CartItem)
    (h : resolves products item = false) : lineAmount products item = 0 := by
  rw [← findProduct_isSome] at h
  unfold lineAmount
  cases hf : findProduct products item.product_id
  · rfl
  · rw [hf] at h
    simp at h

theorem reduce_cartItemsWithDetails (items : List CartItem) (products : List Product)
    (init : ℚ) :
    reduceChecked
      (fun sum (item : CartItemWithDetails) =>
        match item.product with
        | none => Except.error Fault.typeError
        | some product => Except.ok (sum + product.price * item.quantity))
      init (cartItemsWithDetails items products) =
    Except.ok (init + (items.map (lineAmount products)).sum) := by
  induction items generalizing init with
  | nil => simp [cartItemsWithDetails, reduceChecked]
  | cons item rest ih =>
    rw [cartItemsWithDetails_cons, List.map_cons, List.sum_cons]
    unfold lineAmount
    cases h : findProduct products item.product_id
    · simp only [zero_add]
      exact ih init
    · simp only [reduceChecked]
      rw [ih, add_assoc]
      rfl

theorem subtotal_eq (items : List CartItem) (products : List Product) :
    subtotal items products = Except.ok ((items.map (lineAmount products)).sum) := by
  unfold subtotal
  rw [reduce_cartItemsWithDetails, zero_add]

theorem sum_lineAmount_filter (items : List CartItem) (products : List Product) :
    ((items.filter (resolves products)).map (lineAmount products)).sum =
      (items.map (lineAmount products)).sum := by
  induction items with
  | nil => rfl
  | cons item rest ih =>
    rw [List.filter_cons]
    cases h : resolves products item
    · simp [ih, lineAmount_of_not_resolves products item h]
    · simp [ih]

theorem foldl_quantity (items : List CartItem) (init : Int) :
    items.foldl (fun sum item => sum + item.quantity) init =
      init + (items.map (fun item => item.quantity)).sum := by
  induction items generalizing init with
  | nil => simp
  | cons item rest ih =>
    rw [List.foldl_cons, ih, List.map_cons, List.sum_cons, add_assoc]

theorem sum_quantity_split (items : List CartItem) (keep : CartItem → Bool) :
    (items.map (fun item => item.quantity)).sum =
      ((items.filter keep).map (fun item => item.quantity)).sum +
      ((items.filter (fun item => !keep item)).map (fun item => item.quantity)).sum := by
  induction items with
  | nil => rfl
  | cons item rest ih =>
    rw [List.filter_cons, List.filter_cons]
    cases h : keep item
    · simp [ih]; ring
    · simp [ih]; ring

theorem map_toCartItem_cartItemsWithDetails (items : List CartItem) (products : List Product) :
    (cartItemsWithDetails items products).map CartItemWithDetails.toCartItem =
      items.filter (resolves products) := by
  induction items with
  | nil => rfl
  | cons item rest ih =>
    rw [cartItemsWithDetails_cons, List.filter_cons, ← findProduct_isSome]
    cases h : findProduct products item.product_id
    · simpa using ih
    · simp [ih, CartItemWithDetails.toCartItem]

theorem cartItemsWithDetails_eq_filterMap (items : List CartItem) (products : List Product) :
    cartItemsWithDetails items products =
      items.filterMap (fun item =>
        (findProduct products item.product_id).map (fun p => item.withProduct p)) := by
  induction items with
  | nil => rfl
  | cons item rest ih =>
    rw [cartItemsWithDetails_cons, List.filterMap_cons]
    cases h : findProduct products item.product_id
    · simpa using ih
    · simp [ih, CartItem.withProduct]

/-- C11: the line items of `CartPage` are exactly the cart items whose
product id is the id of some product, in cart order; each carries the first
product of the list that has this id; an item whose product id matches no
product does not appear. -/
theorem cartItemsWithDetails_join (items : List CartItem) (products : List Product) :
    (cartItemsWithDetails items products).map CartItemWithDetails.toCartItem =
      items.filter (resolves products) ∧
    cartItemsWithDetails items products =
      items.filterMap (fun item =>
        (findProduct products item.product_id).map (fun p => item.withProduct p)) ∧
    (∀ line ∈ cartItemsWithDetails items products,
      ∃ p before after, line.product = some p ∧ products = before ++ p :: after ∧
        p.id = line.product_id ∧ ∀ q ∈ before, q.id ≠ line.product_id) ∧
    (∀ line ∈ cartItemsWithDetails items products,
      resolves products line.toCartItem = true) := by
  refine ⟨map_toCartItem_cartItemsWithDetails items products,
    cartItemsWithDetails_eq_filterMap items products, fun line hline => ?_, fun line hline => ?_⟩
  · rw [cartItemsWithDetails_eq_filterMap, List.mem_filterMap] at hline
    obtain ⟨item, _, hitem⟩ := hline
    cases h : findProduct products item.product_id with
    | none => simp [h] at hitem
    | some p =>
      rw [h] at hitem
      simp only [Option.map_some', Option.some.injEq] at hitem
      subst hitem
      obtain ⟨before, after, h1, h2, h3⟩ := findProduct_first products _ p h
      exact ⟨p, before, after, rfl, h1, h2, h3⟩
  · have hmem : line.toCartItem ∈ items.filter (resolves products) := by
      rw [← map_toCartItem_cartItemsWithDetails]
      exact List.mem_map_of_mem _ hline
    exact (List.mem_filter.mp hmem).2

/-- C12: the subtotal of `CartPage` is computed without a fault and equals
the exact sum, over the cart items whose product id resolves, of the price of
the product found times the quantity; an item whose product id matches no
product adds 0, and no amount is rounded on the way. -/
theorem subtotal_sum (items : List CartItem) (products : List Product) :
    subtotal items products =
      Except.ok (((items.filter (resolves products)).map (lineAmount products)).sum) ∧
    subtotal items products = Except.ok ((items.map (lineAmount products)).sum) ∧
    (∀ item, resolves products item = false → lineAmount products item = 0) ∧
    (∀ item p, findProduct products item.product_id = some p →
      lineAmount products item = p.price * item.quantity) := by
  refine ⟨?_, subtotal_eq items products, lineAmount_of_not_resolves products, ?_⟩
  · rw [sum_lineAmount_filter]
    exact subtotal_eq items products
  · intro item p h
    unfold lineAmount
    rw [h]

/-- C13: the totals of `CartPage` are computed without a fault, with
shipping 0, tax the subtotal times 0.08 and total the sum of subtotal,
shipping and tax, which in exact arithmetic is the subtotal times 1.08. -/
theorem cartTotals_rates (items : List CartItem) (products : List Product) :
    ∃ totals, cartTotals items products = Except.ok totals ∧
      subtotal items products = Except.ok totals.subtotal ∧
      totals.shipping = 0 ∧
      totals.tax = totals.subtotal * 0.08 ∧
      totals.finalTotal = totals.subtotal + totals.shipping + totals.tax ∧
      totals.finalTotal = totals.subtotal * 1.08 := by
  unfold cartTotals
  rw [subtotal_eq]
  refine ⟨_, rfl, rfl, rfl, rfl, rfl, ?_⟩
  dsimp only
  ring

/-- C14: the item count of the cart context is the sum of the quantities of
all cart items: the items whose product id resolves and those whose product
id matches no product both count, and the product list plays no part. -/
theorem cartValue_itemCount (cartItems : List CartItem) (products : List Product) :
    (cartValue cartItems products).itemCount =
      (cartItems.map (fun item => item.quantity)).sum ∧
    (cartValue cartItems products).itemCount =
      ((cartItems.filter (resolves products)).map (fun item => item.quantity)).sum +
      ((cartItems.filter (fun item => !resolves products item)).map
        (fun item => item.quantity)).sum ∧
    (∀ products', (cartValue cartItems products').itemCount =
      (cartValue cartItems products).itemCount) := by
  have h : ∀ ps, (cartValue cartItems ps).itemCount =
      (cartItems.map (fun item => item.quantity)).sum := by
    intro ps
    unfold cartValue
    dsimp only
    rw [foldl_quantity, zero_add]
  refine ⟨h products, ?_, fun ps => by rw [h ps, h products]⟩
  rw [h products]
  exact sum_quantity_split cartItems (resolves products)

/-- C15: for the products `p1` (price 20) and `p2` (price 10) and the cart of
two `p1` and five of the unknown product `ghost`, there is exactly one line
item, the cart item `c1` joined with `p1`, with line total 40; the subtotal is
40, the tax 3.20, the total 43.20 and the item count 7. -/
theorem cart_scenario :
    cartItemsWithDetails scenarioCart [scenarioP1, scenarioP2] =
      [{ id := "c1", product_id := "p1", quantity := 2, product := some scenarioP1 }] ∧
    lineAmount [scenarioP1, scenarioP2] { id := "c1", product_id := "p1", quantity := 2 } = 40 ∧
    cartTotals scenarioCart [scenarioP1, scenarioP2] =
      Except.ok { subtotal := 40, shipping := 0, tax := 3.20, finalTotal := 43.20 } ∧
    (cartValue scenarioCart [scenarioP1, scenarioP2]).itemCount = 7 := by
  have h1 : findProduct [scenarioP1, scenarioP2] "p1" = some scenarioP1 := by
    simp [findProduct, scenarioP1]
  have h2 : findProduct [scenarioP1, scenarioP2] "ghost" = none := by
    simp [findProduct, scenarioP1, scenarioP2]
  have hsub : subtotal scenarioCart [scenarioP1, scenarioP2] = Except.ok 40 := by
    rw [subtotal_eq]
    simp only [scenarioCart, List.map_cons, List.map_nil, lineAmount, h1, h2]
    norm_num [scenarioP1]
  refine ⟨?_, ?_, ?_, ?_⟩
  · simp [scenarioCart, cartItemsWithDetails_cons, h1, h2, cartItemsWithDetails]
  · simp only [lineAmount, h1]
    norm_num [scenarioP1]
  · unfold cartTotals
    rw [hsub]
    simp only [Except.ok.injEq, CartTotals.mk.injEq]
    norm_num
  · simp [cartValue, scenarioCart]

/-! ## Cart store: what a mutation sends, returns and leaves -/

theorem addToCart_ok (st : AppState) (productId : String) (quantity : Int) (u : Unit) :
    addToCart st productId quantity (Except.ok u) =
      (Except.ok true,
        st.emit [Event.request (Request.postCart productId quantity),
          Event.response (Request.postCart productId quantity) true,
          Event.request Request.getCart]) := by
  simp [addToCart, AppState.awaitRequest, fetchCartCall, AppState.emit, succeeded]

theorem addToCart_error (st : AppState) (productId : String) (quantity : Int)
    (e : RequestError) :
    addToCart st productId quantity (Except.error e) =
      (Except.ok false,
        st.emit [Event.request (Request.postCart productId quantity),
          Event.response (Request.postCart productId quantity) false,
          Event.consoleError "Error adding to cart:"]) := by
  simp [addToCart, AppState.awaitRequest, AppState.emit, succeeded]

theorem removeFromCart_ok (st : AppState) (itemId : String) (u : Unit) :
    removeFromCart st itemId (Except.ok u) =
      (Except.ok (),
        st.emit [Event.request (Request.deleteCartItem itemId),
          Event.response (Request.deleteCartItem itemId) true,
          Event.request Request.getCart]) := by
  simp [removeFromCart, AppState.awaitRequest, fetchCartCall, AppState.emit, succeeded]

theorem removeFromCart_error (st : AppState) (itemId : String) (e : RequestError) :
    removeFromCart st itemId (Except.error e) =
      (Except.ok (),
        st.emit [Event.request (Request.deleteCartItem itemId),
          Event.response (Request.deleteCartItem itemId) false,
          Event.consoleError "Error removing from cart:"]) := by
  simp [removeFromCart, AppState.awaitRequest, AppState.emit, succeeded]

theorem updateCartItem_ok (st : AppState) (itemId : String) (quantity : Int) (u : Unit) :
    updateCartItem st itemId quantity (Except.ok u) =
      (Except.ok (),
        st.emit [Event.request (Request.putCartItem itemId quantity),
          Event.response (Request.putCartItem itemId quantity) true,
          Event.request Request.getCart]) := by
  simp [updateCartItem, AppState.awaitRequest, fetchCartCall, AppState.emit, succeeded]

theorem updateCartItem_error (st : AppState) (itemId : String) (quantity : Int)
    (e : RequestError) :
    updateCartItem st itemId quantity (Except.error e) =
      (Except.ok (),
        st.emit [Event.request (Request.putCartItem itemId quantity),
          Event.response (Request.putCartItem itemId quantity) false,
          Event.consoleError "Error updating cart item:"]) := by
  simp [updateCartItem, AppState.awaitRequest, AppState.emit, succeeded]

theorem clearCart_ok (st : AppState) (u : Unit) :
    clearCart st (Except.ok u) =
      (Except.ok (),
        st.emit [Event.request Request.deleteCart, Event.response Request.deleteCart true,
          Event.request Request.getCart]) := by
  simp [clearCart, AppState.awaitRequest, fetchCartCall, AppState.emit, succeeded]

theorem clearCart_error (st : AppState) (e : RequestError) :
    clearCart st (Except.error e) =
      (Except.ok (),
        st.emit [Event.request Request.deleteCart, Event.response Request.deleteCart false,
          Event.consoleError "Error clearing cart:"]) := by
  simp [clearCart, AppState.awaitRequest, AppState.emit, succeeded]

theorem eventsSince_emit (st : AppState) (events : List Event) :
    eventsSince st (st.emit events) = events := by
  simp [eventsSince, AppState.emit]

/-- C16: `addToCart` returns true exactly when its `POST /cart` succeeds.  On
success it sends the request, then, after the response, `GET /cart`, and
returns true.  On failure it returns false, sends no `GET /cart`, leaves the
cart items and the products as they were, and logs the error.  In neither
case does it throw. -/
theorem addToCart_result (st : AppState) (productId : String) (quantity : Int)
    (response : Except RequestError Unit) :
    ((addToCart st productId quantity response).1 = Except.ok true ↔
      succeeded response = true) ∧
    (succeeded response = true →
      (addToCart st productId quantity response).1 = Except.ok true ∧
      eventsSince st (addToCart st productId quantity response).2 =
        [Event.request (Request.postCart productId quantity),
          Event.response (Request.postCart productId quantity) true,
          Event.request Request.getCart]) ∧
    (succeeded response = false →
      (addToCart st productId quantity response).1 = Except.ok false ∧
      eventsSince st (addToCart st productId quantity response).2 =
        [Event.request (Request.postCart productId quantity),
          Event.response (Request.postCart productId quantity) false,
          Event.consoleError "Error adding to cart:"] ∧
      Event.request Request.getCart ∉
        eventsSince st (addToCart st productId quantity response).2 ∧
      (addToCart st productId quantity response).2.cartItems = st.cartItems ∧
      (addToCart st productId quantity response).2.products = st.products) ∧
    (∀ e, (addToCart st productId quantity response).1 ≠ Except.error e) ∧
    (addToCart st productId quantity response).2.trace =
      st.trace ++ eventsSince st (addToCart st productId quantity response).2 := by
  cases response with
  | ok u =>
    rw [addToCart_ok, eventsSince_emit]
    simp [succeeded, AppState.emit]
  | error e =>
    rw [addToCart_error, eventsSince_emit]
    simp [succeeded, AppState.emit]

/-- C17, as stated, fails: when `DELETE /cart/c1` fails, `removeFromCart`
logs the error and sends no `GET /cart`. -/
theorem removeFromCart_refetch_counterexample :
    (removeFromCart AppState.initial "c1" (Except.error { status := some 500 })).2.trace =
      [Event.request (Request.deleteCartItem "c1"),
        Event.response (Request.deleteCartItem "c1") false,
        Event.consoleError "Error removing from cart:"] ∧
    Event.request Request.getCart ∉
      (removeFromCart AppState.initial "c1" (Except.error { status := some 500 })).2.trace := by
  rw [removeFromCart_error]
  simp [AppState.emit, AppState.initial]

/-- C17, amended: `removeFromCart` sends `DELETE /cart/{itemId}` and fetches
the cart again only when the delete succeeded: after a successful delete
`GET /cart` is sent, after the response; after a failed delete the error is
logged and no `GET /cart` is sent.  In both cases the call returns without
throwing and leaves the cart items as they were. -/
theorem removeFromCart_refetch (st : AppState) (itemId : String)
    (response : Except RequestError Unit) :
    (succeeded response = true →
      eventsSince st (removeFromCart st itemId response).2 =
        [Event.request (Request.deleteCartItem itemId),
          Event.response (Request.deleteCartItem itemId) true,
          Event.request Request.getCart]) ∧
    (succeeded response = false →
      eventsSince st (removeFromCart st itemId response).2 =
        [Event.request (Request.deleteCartItem itemId),
          Event.response (Request.deleteCartItem itemId) false,
          Event.consoleError "Error removing from cart:"] ∧
      Event.request Request.getCart ∉ eventsSince st (removeFromCart st itemId response).2) ∧
    (removeFromCart st itemId response).1 = Except.ok () ∧
    (removeFromCart st itemId response).2.cartItems = st.cartItems ∧
    (removeFromCart st itemId response).2.trace =
      st.trace ++ eventsSince st (removeFromCart st itemId response).2 := by
  cases response with
  | ok u =>
    rw [removeFromCart_ok, eventsSince_emit]
    simp [succeeded, AppState.emit]
  | error e =>
    rw [removeFromCart_error, eventsSince_emit]
    simp [succeeded, AppState.emit]

theorem refetchAfterResponse_ok (mutation : Request) (h : mutation ≠ Request.getCart) :
    RefetchAfterResponse mutation
      [Event.request mutation, Event.response mutation true, Event.request Request.getCart] := by
  intro before after heq
  rcases before with _ | ⟨a, _ | ⟨b, _ | ⟨c, rest⟩⟩⟩
  · simp only [List.nil_append, List.cons.injEq, Event.request.injEq] at heq
    exact absurd heq.1 h
  · simp at heq
  · simp only [List.cons_append, List.nil_append, List.cons.injEq] at heq
    exact ⟨true, by simp [← heq.2.1]⟩
  · have hlen := congrArg List.length heq
    simp at hlen

theorem refetchAfterResponse_error (mutation : Request) (h : mutation ≠ Request.getCart)
    (message : String) :
    RefetchAfterResponse mutation
      [Event.request mutation, Event.response mutation false, Event.consoleError message] := by
  intro before after heq
  have hmem : Event.request Request.getCart ∈
      [Event.request mutation, Event.response mutation false, Event.consoleError message] := by
    rw [heq]
    simp
  simp at hmem
  exact absurd hmem.symm h

/-- C18: in every run of `addToCart`, `removeFromCart`, `updateCartItem` or
`clearCart` the first two events are the operation's own request and the
response to it, and a `GET /cart` sent by the run stands after that response:
the cart is never fetched again before the mutation request has completed. -/
theorem mutation_refetch_after_response (st : AppState) (productId itemId : String)
    (quantity : Int) (response : Except RequestError Unit) :
    (RefetchAfterResponse (Request.postCart productId quantity)
        (eventsSince st (addToCart st productId quantity response).2) ∧
      (eventsSince st (addToCart st productId quantity response).2).take 2 =
        [Event.request (Request.postCart productId quantity),
          Event.response (Request.postCart productId quantity) (succeeded response)]) ∧
    (RefetchAfterResponse (Request.deleteCartItem itemId)
        (eventsSince st (removeFromCart st itemId response).2) ∧
      (eventsSince st (removeFromCart st itemId response).2).take 2 =
        [Event.request (Request.deleteCartItem itemId),
          Event.response (Request.deleteCartItem itemId) (succeeded response)]) ∧
    (RefetchAfterResponse (Request.putCartItem itemId quantity)
        (eventsSince st (updateCartItem st itemId quantity response).2) ∧
      (eventsSince st (updateCartItem st itemId quantity response).2).take 2 =
        [Event.request (Request.putCartItem itemId quantity),
          Event.response (Request.putCartItem itemId quantity) (succeeded response)]) ∧
    (RefetchAfterResponse Request.deleteCart (eventsSince st (clearCart st response).2) ∧
      (eventsSince st (clearCart st response).2).take 2 =
        [Event.request Request.deleteCart,
          Event.response Request.deleteCart (succeeded response)]) := by
  cases response with
  | ok u =>
    rw [addToCart_ok, removeFromCart_ok, updateCartItem_ok, clearCart_ok]
    simp only [eventsSince_emit, succeeded, List.take_succ_cons, List.take_zero, and_true]
    exact ⟨refetchAfterResponse_ok _ (by simp), refetchAfterResponse_ok _ (by simp),
      refetchAfterResponse_ok _ (by simp), refetchAfterResponse_ok _ (by simp)⟩
  | error e =>
    rw [addToCart_error, removeFromCart_error, updateCartItem_error, clearCart_error]
    simp only [eventsSince_emit, succeeded, List.take_succ_cons, List.take_zero, and_true]
    exact ⟨refetchAfterResponse_error _ (by simp) _, refetchAfterResponse_error _ (by simp) _,
      refetchAfterResponse_error _ (by simp) _, refetchAfterResponse_error _ (by simp) _⟩

/-! ## Quantities sent to the server -/

theorem emit_emit (st : AppState) (a b : List Event) :
    (st.emit a).emit b = st.emit (a ++ b) := by
  simp [AppState.emit]

theorem handleQuantityChange_remove (st : AppState) (itemId : String) (newQuantity : Int)
    (response : Except RequestError Unit) (h : newQuantity ≤ 0) :
    (handleQuantityChange st itemId newQuantity response).2 =
      st.emit [Event.request (Request.deleteCartItem itemId),
        Event.response (Request.deleteCartItem itemId) (succeeded response),
        (match response with
          | Except.ok _ => Event.request Request.getCart
          | Except.error _ => Event.consoleError "Error removing from cart:"),
        Event.toastSuccess "Item removed from cart"] := by
  unfold handleQuantityChange
  rw [if_pos h]
  cases response with
  | ok u => simp [removeFromCart_ok, emit_emit, succeeded]
  | error e => simp [removeFromCart_error, emit_emit, succeeded]

theorem handleQuantityChange_update (st : AppState) (itemId : String) (newQuantity : Int)
    (response : Except RequestError Unit) (h : 0 < newQuantity) :
    (handleQuantityChange st itemId newQuantity response).2 =
      st.emit [Event.request (Request.putCartItem itemId newQuantity),
        Event.response (Request.putCartItem itemId newQuantity) (succeeded response),
        (match response with
          | Except.ok _ => Event.request Request.getCart
          | Except.error _ => Event.consoleError "Error updating cart item:")] := by
  unfold handleQuantityChange
  rw [if_neg (not_le.mpr h)]
  cases response with
  | ok u => simp [updateCartItem_ok, succeeded]
  | error e => simp [updateCartItem_error, succeeded]

/-- C19: `handleQuantityChange` turns a quantity that is not positive into a
removal.  For `newQuantity <= 0` the call starts with `DELETE /cart/{itemId}`
and sends no `PUT` at all; for `newQuantity > 0` it starts with
`PUT /cart/{itemId}?quantity=newQuantity`, sends no other `PUT` and no
`DELETE` of an item. -/
theorem handleQuantityChange_dispatch (st : AppState) (itemId : String) (newQuantity : Int)
    (response : Except RequestError Unit) :
    (newQuantity ≤ 0 →
      (eventsSince st (handleQuantityChange st itemId newQuantity response).2).head? =
        some (Event.request (Request.deleteCartItem itemId)) ∧
      (∀ id quantity, Event.request (Request.putCartItem id quantity) ∉
        eventsSince st (handleQuantityChange st itemId newQuantity response).2) ∧
      (handleQuantityChange st itemId newQuantity response).2 =
        (removeFromCart st itemId response).2.emit
          [Event.toastSuccess "Item removed from cart"]) ∧
    (0 < newQuantity →
      (eventsSince st (handleQuantityChange st itemId newQuantity response).2).head? =
        some (Event.request (Request.putCartItem itemId newQuantity)) ∧
      (∀ id quantity, Event.request (Request.putCartItem id quantity) ∈
          eventsSince st (handleQuantityChange st itemId newQuantity response).2 →
        id = itemId ∧ quantity = newQuantity) ∧
      (∀ id, Event.request (Request.deleteCartItem id) ∉
        eventsSince st (handleQuantityChange st itemId newQuantity response).2) ∧
      (handleQuantityChange st itemId newQuantity response).2 =
        (updateCartItem st itemId newQuantity response).2) := by
  constructor
  · intro h
    rw [handleQuantityChange_remove st itemId newQuantity response h, eventsSince_emit]
    refine ⟨rfl, fun id quantity => ?_, ?_⟩
    · cases response <;> simp
    · cases response with
      | ok u => simp [removeFromCart_ok, emit_emit, succeeded]
      | error e => simp [removeFromCart_error, emit_emit, succeeded]
  · intro h
    rw [handleQuantityChange_update st itemId newQuantity response h, eventsSince_emit]
    refine ⟨rfl, fun id quantity => ?_, fun id => ?_, ?_⟩
    · cases response <;> simp
    · cases response <;> simp
    · cases response with
      | ok u => simp [updateCartItem_ok, succeeded]
      | error e => simp [updateCartItem_error, succeeded]

/-- C19 at the quantities 0 and 3 for the cart item `c1`. -/
theorem handleQuantityChange_dispatch_witness :
    (eventsSince AppState.initial
      (handleQuantityChange AppState.initial "c1" 0 (Except.ok ())).2).head? =
        some (Event.request (Request.deleteCartItem "c1")) ∧
    (eventsSince AppState.initial
      (handleQuantityChange AppState.initial "c1" 3 (Except.ok ())).2).head? =
        some (Event.request (Request.putCartItem "c1" 3)) :=
  ⟨((handleQuantityChange_dispatch AppState.initial "c1" 0 (Except.ok ())).1 (by decide)).1,
    ((handleQuantityChange_dispatch AppState.initial "c1" 3 (Except.ok ())).2 (by decide)).1⟩

theorem persistsPositive_append (trace events : List Event) (h : PersistsPositive trace)
    (he : ∀ r quantity, Event.request r ∈ events → r.quantity? = some quantity → 1 ≤ quantity) :
    PersistsPositive (trace ++ events) := by
  intro r quantity hr hq
  rcases List.mem_append.mp hr with hr | hr
  · exact h r quantity hr hq
  · exact he r quantity hr hq

theorem addToCartWithToast_state (st : AppState) (productId : String) (quantity : Int)
    (response : Except RequestError Unit) :
    (addToCartWithToast st productId quantity response).2 =
      st.emit [Event.request (Request.postCart productId quantity),
        Event.response (Request.postCart productId quantity) (succeeded response),
        (match response with
          | Except.ok _ => Event.request Request.getCart
          | Except.error _ => Event.consoleError "Error adding to cart:"),
        (match response with
          | Except.ok _ => Event.toastSuccess "Added to cart!"
          | Except.error _ => Event.toastError "Failed to add to cart")] := by
  unfold addToCartWithToast
  cases response with
  | ok u => simp [addToCart_ok, emit_emit, succeeded]
  | error e => simp [addToCart_error, emit_emit, succeeded]

theorem handleRemoveItem_state (st : AppState) (itemId : String)
    (response : Except RequestError Unit) :
    (handleRemoveItem st itemId response).2 =
      st.emit [Event.request (Request.deleteCartItem itemId),
        Event.response (Request.deleteCartItem itemId) (succeeded response),
        (match response with
          | Except.ok _ => Event.request Request.getCart
          | Except.error _ => Event.consoleError "Error removing from cart:"),
        Event.toastSuccess "Item removed from cart"] := by
  unfold handleRemoveItem
  cases response with
  | ok u => simp [removeFromCart_ok, emit_emit, succeeded]
  | error e => simp [removeFromCart_error, emit_emit, succeeded]

theorem handleClearCart_state (st : AppState) (response : Except RequestError Unit) :
    (handleClearCart st response).2 =
      st.emit [Event.request Request.deleteCart,
        Event.response Request.deleteCart (succeeded response),
        (match response with
          | Except.ok _ => Event.request Request.getCart
          | Except.error _ => Event.consoleError "Error clearing cart:"),
        Event.toastSuccess "Cart cleared"] := by
  unfold handleClearCart
  cases response with
  | ok u => simp [clearCart_ok, emit_emit, succeeded]
  | error e => simp [clearCart_error, emit_emit, succeeded]

theorem handleQuantityChange_positive (st : AppState) (itemId : String) (newQuantity : Int)
    (response : Except RequestError Unit) (h : PersistsPositive st.trace) :
    PersistsPositive (handleQuantityChange st itemId newQuantity response).2.trace ∧
    (handleQuantityChange st itemId newQuantity response).2.cartItems = st.cartItems := by
  by_cases hq : newQuantity ≤ 0
  · rw [handleQuantityChange_remove st itemId newQuantity response hq]
    refine ⟨persistsPositive_append _ _ h (fun r quantity hr hrq => ?_), rfl⟩
    cases response <;> simp at hr <;> (try rcases hr with hr | hr) <;> (try subst hr) <;>
      simp [Request.quantity?] at hrq
  · have hpos : 0 < newQuantity := not_le.mp hq
    rw [handleQuantityChange_update st itemId newQuantity response hpos]
    refine ⟨persistsPositive_append _ _ h (fun r quantity hr hrq => ?_), rfl⟩
    cases response <;> simp at hr <;> (try rcases hr with hr | hr) <;> (try subst hr) <;>
      simp [Request.quantity?] at hrq <;> omega

theorem addToCartWithToast_positive (st : AppState) (productId : String) (quantity : Int)
    (response : Except RequestError Unit) (h : PersistsPositive st.trace) (hq : 1 ≤ quantity) :
    PersistsPositive (addToCartWithToast st productId quantity response).2.trace ∧
    (addToCartWithToast st productId quantity response).2.cartItems = st.cartItems := by
  rw [addToCartWithToast_state]
  refine ⟨persistsPositive_append _ _ h (fun r quantity hr hrq => ?_), rfl⟩
  cases response <;> simp at hr <;> (try rcases hr with hr | hr) <;> (try subst hr) <;>
    simp [Request.quantity?] at hrq <;> omega

theorem handleRemoveItem_positive (st : AppState) (itemId : String)
    (response : Except RequestError Unit) (h : PersistsPositive st.trace) :
    PersistsPositive (handleRemoveItem st itemId response).2.trace ∧
    (handleRemoveItem st itemId response).2.cartItems = st.cartItems := by
  rw [handleRemoveItem_state]
  refine ⟨persistsPositive_append _ _ h (fun r quantity hr hrq => ?_), rfl⟩
  cases response <;> simp at hr <;> (try rcases hr with hr | hr) <;> (try subst hr) <;>
    simp [Request.quantity?] at hrq

theorem handleClearCart_positive (st : AppState) (response : Except RequestError Unit)
    (h : PersistsPositive st.trace) :
    PersistsPositive (handleClearCart st response).2.trace ∧
    (handleClearCart st response).2.cartItems = st.cartItems := by
  rw [handleClearCart_state]
  refine ⟨persistsPositive_append _ _ h (fun r quantity hr hrq => ?_), rfl⟩
  cases response <;> simp at hr <;> (try rcases hr with hr | hr) <;> (try subst hr) <;>
    simp [Request.quantity?] at hrq

theorem fetchCartSettle_positive (st : AppState) (response : Except RequestError (List CartItem))
    (h : PersistsPositive st.trace) :
    PersistsPositive (fetchCartSettle st response).trace ∧
    (∀ item ∈ (fetchCartSettle st response).cartItems,
      item ∈ st.cartItems ∨ ∃ data, response = Except.ok data ∧ item ∈ data) := by
  cases response with
  | ok data =>
    refine ⟨persistsPositive_append _ _ h (fun r quantity hr hrq => ?_), fun item hitem => ?_⟩
    · simp at hr
    · exact Or.inr ⟨data, rfl, hitem⟩
  | error e =>
    refine ⟨persistsPositive_append _ _ h (fun r quantity hr hrq => ?_), fun item hitem => ?_⟩
    · simp at hr
    · exact Or.inl hitem

theorem fetchProductsSettle_positive (st : AppState)
    (response : Except RequestError (List Product)) (h : PersistsPositive st.trace) :
    PersistsPositive (fetchProductsSettle st response).trace ∧
    (fetchProductsSettle st response).cartItems = st.cartItems := by
  cases response with
  | ok data =>
    refine ⟨persistsPositive_append _ _ h (fun r quantity hr hrq => ?_), rfl⟩
    simp at hr
  | error e =>
    refine ⟨persistsPositive_append _ _ h (fun r quantity hr hrq => ?_), rfl⟩
    simp at hr

theorem uiStep_cartMinus (ui : UIState) (line : Nat) (response : Except RequestError Unit) :
    uiStep ui (UIEvent.cartMinus line response) =
      match (cartItemsWithDetails ui.app.cartItems ui.app.products)[line]? with
      | some item =>
        { ui with app := (handleQuantityChange ui.app item.id (item.quantity - 1) response).2 }
      | none => ui := rfl

theorem uiStep_cartPlus (ui : UIState) (line : Nat) (response : Except RequestError Unit) :
    uiStep ui (UIEvent.cartPlus line response) =
      match (cartItemsWithDetails ui.app.cartItems ui.app.products)[line]? with
      | some item =>
        { ui with app := (handleQuantityChange ui.app item.id (item.quantity + 1) response).2 }
      | none => ui := rfl

theorem uiStep_cartRemove (ui : UIState) (line : Nat) (response : Except RequestError Unit) :
    uiStep ui (UIEvent.cartRemove line response) =
      match (cartItemsWithDetails ui.app.cartItems ui.app.products)[line]? with
      | some item => { ui with app := (handleRemoveItem ui.app item.id response).2 }
      | none => ui := rfl

theorem uiStep_invariant (ui : UIState) (ev : UIEvent) (hq : 1 ≤ ui.quantity)
    (ht : PersistsPositive ui.app.trace) :
    1 ≤ (uiStep ui ev).quantity ∧ PersistsPositive (uiStep ui ev).app.trace ∧
    ((∀ item ∈ ui.app.cartItems, 1 ≤ item.quantity) → DeliversPositive ev →
      ∀ item ∈ (uiStep ui ev).app.cartItems, 1 ≤ item.quantity) := by
  cases ev with
  | openProductPage => exact ⟨le_refl 1, ht, fun hc _ => hc⟩
  | productMinus => exact ⟨le_max_left 1 _, ht, fun hc _ => hc⟩
  | productPlus => exact ⟨by show 1 ≤ ui.quantity + 1; omega, ht, fun hc _ => hc⟩
  | productAddToCart productId response =>
    have h := addToCartWithToast_positive ui.app productId ui.quantity response ht hq
    exact ⟨hq, h.1, fun hc _ item hitem => hc item (h.2 ▸ hitem)⟩
  | homeAddToCart productId response =>
    have h := addToCartWithToast_positive ui.app productId 1 response ht (le_refl 1)
    exact ⟨hq, h.1, fun hc _ item hitem => hc item (h.2 ▸ hitem)⟩
  | shopAddToCart productId response =>
    have h := addToCartWithToast_positive ui.app productId 1 response ht (le_refl 1)
    exact ⟨hq, h.1, fun hc _ item hitem => hc item (h.2 ▸ hitem)⟩
  | cartMinus line response =>
    rw [uiStep_cartMinus]
    split
    · rename_i item _
      have h := handleQuantityChange_positive ui.app item.id (item.quantity - 1) response ht
      exact ⟨hq, h.1, fun hc _ item hitem => hc item (h.2 ▸ hitem)⟩
    · exact ⟨hq, ht, fun hc _ => hc⟩
  | cartPlus line response =>
    rw [uiStep_cartPlus]
    split
    · rename_i item _
      have h := handleQuantityChange_positive ui.app item.id (item.quantity + 1) response ht
      exact ⟨hq, h.1, fun hc _ item hitem => hc item (h.2 ▸ hitem)⟩
    · exact ⟨hq, ht, fun hc _ => hc⟩
  | cartRemove line response =>
    rw [uiStep_cartRemove]
    split
    · rename_i item _
      have h := handleRemoveItem_positive ui.app item.id response ht
      exact ⟨hq, h.1, fun hc _ item hitem => hc item (h.2 ▸ hitem)⟩
    · exact ⟨hq, ht, fun hc _ => hc⟩
  | cartClear response =>
    have h := handleClearCart_positive ui.app response ht
    exact ⟨hq, h.1, fun hc _ item hitem => hc item (h.2 ▸ hitem)⟩
  | cartFetched response =>
    have h := fetchCartSettle_positive ui.app response ht
    refine ⟨hq, h.1, fun hc hd item hitem => ?_⟩
    rcases h.2 item hitem with hold | ⟨data, hdata, hnew⟩
    · exact hc item hold
    · subst hdata
      exact hd item hnew
  | productsFetched response =>
    have h := fetchProductsSettle_positive ui.app response ht
    exact ⟨hq, h.1, fun hc _ item hitem => hc item (h.2 ▸ hitem)⟩

theorem runSession_invariant (events : List UIEvent) (ui : UIState) (hq : 1 ≤ ui.quantity)
    (ht : PersistsPositive ui.app.trace) :
    1 ≤ (runSession ui events).quantity ∧ PersistsPositive (runSession ui events).app.trace ∧
    ((∀ item ∈ ui.app.cartItems, 1 ≤ item.quantity) → (∀ ev ∈ events, DeliversPositive ev) →
      ∀ item ∈ (runSession ui events).app.cartItems, 1 ≤ item.quantity) := by
  induction events generalizing ui with
  | nil => exact ⟨hq, ht, fun hc _ => hc⟩
  | cons ev rest ih =>
    have hstep := uiStep_invariant ui ev hq ht
    have hrest := ih (uiStep ui ev) hstep.1 hstep.2.1
    refine ⟨hrest.1, hrest.2.1, fun hc hd => ?_⟩
    exact hrest.2.2 (hstep.2.2 hc (hd ev (List.mem_cons_self ev rest)))
      (fun ev' hev' => hd ev' (List.mem_cons_of_mem ev hev'))

/-- C20: the client never asks the server to store a quantity below 1.  In
every session from the start of the app, whatever is clicked and whatever the
server answers, the quantity state of `ProductPage` stays at least 1 and every
`POST /cart` and every `PUT /cart/{itemId}` that is sent carries a quantity
of at least 1; and as long as the carts the server delivers hold quantities
of at least 1, so do the cart items in the state. -/
theorem session_quantities_positive (events : List UIEvent) :
    1 ≤ (runSession UIState.initial events).quantity ∧
    (∀ productId quantity,
      Event.request (Request.postCart productId quantity) ∈
        (runSession UIState.initial events).app.trace → 1 ≤ quantity) ∧
    (∀ itemId quantity,
      Event.request (Request.putCartItem itemId quantity) ∈
        (runSession UIState.initial events).app.trace → 1 ≤ quantity) ∧
    ((∀ ev ∈ events, DeliversPositive ev) →
      ∀ item ∈ (runSession UIState.initial events).app.cartItems, 1 ≤ item.quantity) := by
  have hinit : PersistsPositive UIState.initial.app.trace := by
    intro r quantity hr _
    simp [UIState.initial, AppState.initial] at hr
  have h := runSession_invariant events UIState.initial (le_refl 1) hinit
  refine ⟨h.1, fun productId quantity hmem => h.2.1 _ quantity hmem rfl,
    fun itemId quantity hmem => h.2.1 _ quantity hmem rfl, fun hd => h.2.2 ?_ hd⟩
  intro item hitem
  simp [UIState.initial, AppState.initial] at hitem

/-- C20 on a session in which the catalogue and a cart with two `p1` arrive,
the minus button of the cart line is clicked, the quantity of the product
page is raised to 2 and the product is added: the requests `PUT` with
quantity 1 and `POST` with quantity 2 are sent, and both are at least 1. -/
theorem session_quantities_positive_witness :
    Event.request (Request.putCartItem "c1" 1) ∈
      (runSession UIState.initial
        [UIEvent.productsFetched (Except.ok [scenarioP1]),
          UIEvent.cartFetched (Except.ok [{ id := "c1", product_id := "p1", quantity := 2 }]),
          UIEvent.cartMinus 0 (Except.ok ()),
          UIEvent.productPlus,
          UIEvent.productAddToCart "p1" (Except.ok ())]).app.trace ∧
    Event.request (Request.postCart "p1" 2) ∈
      (runSession UIState.initial
        [UIEvent.productsFetched (Except.ok [scenarioP1]),
          UIEvent.cartFetched (Except.ok [{ id := "c1", product_id := "p1", quantity := 2 }]),
          UIEvent.cartMinus 0 (Except.ok ()),
          UIEvent.productPlus,
          UIEvent.productAddToCart "p1" (Except.ok ())]).app.trace ∧
    1 ≤ (runSession UIState.initial
        [UIEvent.productsFetched (Except.ok [scenarioP1]),
          UIEvent.cartFetched (Except.ok [{ id := "c1", product_id := "p1", quantity := 2 }]),
          UIEvent.cartMinus 0 (Except.ok ()),
          UIEvent.productPlus,
          UIEvent.productAddToCart "p1" (Except.ok ())]).quantity := by
  refine ⟨?_, ?_, (session_quantities_positive _).1⟩
  · simp [runSession, uiStep, UIState.initial, AppState.initial, fetchProductsSettle,
      fetchCartSettle, AppState.emit, cartItemsWithDetails, findProduct, scenarioP1,
      handleQuantityChange, updateCartItem, AppState.awaitRequest, fetchCartCall,
      productHandleAddToCart, addToCartWithToast, addToCart, succeeded]
  · simp [runSession, uiStep, UIState.initial, AppState.initial, fetchProductsSettle,
      fetchCartSettle, AppState.emit, cartItemsWithDetails, findProduct, scenarioP1,
      handleQuantityChange, updateCartItem, AppState.awaitRequest, fetchCartCall,
      productHandleAddToCart, addToCartWithToast, addToCart, succeeded]

/-! ## Session start and the fetches -/

theorem requestsOf_append (a b : List Event) :
    requestsOf (a ++ b) = requestsOf a ++ requestsOf b := by
  simp [requestsOf, List.filterMap_append]

theorem requestsOf_settleStep (st : AppState) (ev : SettleEvent) :
    requestsOf (settleStep st ev).trace = requestsOf st.trace := by
  cases ev with
  | products response =>
    cases response <;>
      simp [settleStep, fetchProductsSettle, AppState.emit, requestsOf_append, requestsOf]
  | cart response =>
    cases response <;>
      simp [settleStep, fetchCartSettle, AppState.emit, requestsOf_append, requestsOf]
  | seed response =>
    cases response <;>
      simp [settleStep, initializeProductsSettle, AppState.emit, requestsOf_append, requestsOf]

theorem requestsOf_foldl_settleStep (settles : List SettleEvent) (st : AppState) :
    requestsOf (settles.foldl settleStep st).trace = requestsOf st.trace := by
  induction settles generalizing st with
  | nil => rfl
  | cons ev rest ih => rw [List.foldl_cons, ih, requestsOf_settleStep]

theorem appMount_trace (st : AppState) :
    (appMount st).trace =
      st.trace ++ [Event.request Request.getProducts, Event.request Request.getCart,
        Event.request Request.postInitProducts] := by
  simp [appMount, initializeProductsCall, fetchCartCall, fetchProductsCall, AppState.emit]

/-- C21, as stated, fails: when `App` is mounted the requests go out in the
order `GET /products`, `GET /cart`, `POST /init-products`, so the seed
request does not precede the fetch of the products nor the fetch of the
cart. -/
theorem appMount_seed_first_counterexample :
    requestsOf (appMount AppState.initial).trace =
      [Request.getProducts, Request.getCart, Request.postInitProducts] ∧
    ¬ IssuedBefore Request.postInitProducts Request.getProducts (appMount AppState.initial).trace ∧
    ¬ IssuedBefore Request.postInitProducts Request.getCart (appMount AppState.initial).trace := by
  rw [appMount_trace]
  refine ⟨by simp [AppState.initial, requestsOf], fun h => ?_, fun h => ?_⟩
  · have := h [] [Event.request Request.getCart, Event.request Request.postInitProducts]
      (by simp [AppState.initial])
    simp at this
  · have := h [Event.request Request.getProducts] [Event.request Request.postInitProducts]
      (by simp [AppState.initial])
    simp at this

/-- C21, amended: at session start the app sends `GET /products`, then
`GET /cart`, then `POST /init-products`, none of them awaited: the seed
request is sent after both fetches, and whatever responses arrive and in
whatever order, no further request is sent, so the product list is fetched
once and not again after the seed call. -/
theorem appMount_order (st : AppState) (settles : List SettleEvent) :
    eventsSince st (appMount st) =
      [Event.request Request.getProducts, Event.request Request.getCart,
        Event.request Request.postInitProducts] ∧
    IssuedBefore Request.getProducts Request.getCart (eventsSince st (appMount st)) ∧
    IssuedBefore Request.getProducts Request.postInitProducts (eventsSince st (appMount st)) ∧
    IssuedBefore Request.getCart Request.postInitProducts (eventsSince st (appMount st)) ∧
    requestsOf (startSession settles).trace =
      [Request.getProducts, Request.getCart, Request.postInitProducts] := by
  have hev : eventsSince st (appMount st) =
      [Event.request Request.getProducts, Event.request Request.getCart,
        Event.request Request.postInitProducts] := by
    simp [eventsSince, appMount_trace]
  rw [hev]
  refine ⟨rfl, ?_, ?_, ?_, ?_⟩
  · intro before after heq
    rcases before with _ | ⟨a, _ | ⟨b, _ | ⟨c, rest⟩⟩⟩ <;> simp at heq
    simp [heq.1]
  · intro before after heq
    rcases before with _ | ⟨a, _ | ⟨b, _ | ⟨c, rest⟩⟩⟩ <;> simp at heq
    simp [heq.1]
  · intro before after heq
    rcases before with _ | ⟨a, _ | ⟨b, _ | ⟨c, rest⟩⟩⟩ <;> simp at heq
    simp [heq.2.1]
  · unfold startSession
    rw [requestsOf_foldl_settleStep, appMount_trace]
    simp [AppState.initial, requestsOf]

theorem fetchProducts_eq (st : AppState) (response : Except RequestError (List Product)) :
    fetchProducts st response =
      (Except.ok (), fetchProductsSettle (fetchProductsCall st) response) := by
  cases response <;>
    simp [fetchProducts, fetchProductsSettle, fetchProductsCall, AppState.awaitRequest,
      AppState.emit, succeeded]

theorem fetchCart_eq (st : AppState) (response : Except RequestError (List CartItem)) :
    fetchCart st response = (Except.ok (), fetchCartSettle (fetchCartCall st) response) := by
  cases response <;>
    simp [fetchCart, fetchCartSettle, fetchCartCall, AppState.awaitRequest, AppState.emit,
      succeeded]

/-- C22: a failing fetch leaves the state at its previous value and a
successful one replaces the whole list.  When `GET /products` fails,
`fetchProducts` leaves the product list as it was, and when `GET /cart`
fails, `fetchCart` leaves the cart items as they were; on success the list
becomes the data of the response; neither call touches the other list, and
neither throws. -/
theorem fetch_failure_keeps_state (st : AppState) :
    (∀ e, (fetchProducts st (Except.error e)).2.products = st.products ∧
      (fetchProducts st (Except.error e)).2.cartItems = st.cartItems ∧
      (fetchProducts st (Except.error e)).1 = Except.ok ()) ∧
    (∀ e, (fetchCart st (Except.error e)).2.cartItems = st.cartItems ∧
      (fetchCart st (Except.error e)).2.products = st.products ∧
      (fetchCart st (Except.error e)).1 = Except.ok ()) ∧
    (∀ data, (fetchProducts st (Except.ok data)).2.products = data ∧
      (fetchProducts st (Except.ok data)).2.cartItems = st.cartItems ∧
      (fetchProducts st (Except.ok data)).1 = Except.ok ()) ∧
    (∀ data, (fetchCart st (Except.ok data)).2.cartItems = data ∧
      (fetchCart st (Except.ok data)).2.products = st.products ∧
      (fetchCart st (Except.ok data)).1 = Except.ok ()) ∧
    (∀ response, (fetchProducts st response).2 =
      fetchProductsSettle (fetchProductsCall st) response) ∧
    (∀ response, (fetchCart st response).2 = fetchCartSettle (fetchCartCall st) response) := by
  refine ⟨fun e => ?_, fun e => ?_, fun data => ?_, fun data => ?_, fun response => ?_,
    fun response => ?_⟩
  · simp [fetchProducts, AppState.awaitRequest, AppState.emit]
  · simp [fetchCart, AppState.awaitRequest, AppState.emit]
  · simp [fetchProducts, AppState.awaitRequest, AppState.emit]
  · simp [fetchCart, AppState.awaitRequest, AppState.emit]
  · rw [fetchProducts_eq]
  · rw [fetchCart_eq]

/-! ## Newsletter form -/

theorem trim_of_all_white (s : String) (h : ∀ c ∈ s.data, isTrimmed c = true) : trim s = "" := by
  have h1 : s.data.dropWhile isTrimmed = [] := List.dropWhile_eq_nil_iff.mpr h
  unfold trim
  rw [h1]
  rfl

/-- C23: `handleNewsletterSubmit` tells the duplicate email from other
failures by the status.  With an email that is empty or white space only no
request is sent and nothing changes.  Otherwise `POST /newsletter` is sent
with the trimmed email, and then: on success the success message is shown and
the email field is emptied; on a failure with status 400 the message
`Already subscribed` is shown; on every other failure the message
`Subscription failed` is shown; a failure leaves the email field as it was.
The call never throws. -/
theorem handleNewsletterSubmit_messages (st : AppState) (page : HomePageState) :
    ((∀ c ∈ page.newsletterEmail.data, isTrimmed c = true) → trim page.newsletterEmail = "") ∧
    (trim page.newsletterEmail = "" →
      ∀ response, handleNewsletterSubmit st page response = (Except.ok (), st, page)) ∧
    (trim page.newsletterEmail ≠ "" →
      (∀ u,
        eventsSince st (handleNewsletterSubmit st page (Except.ok u)).2.1 =
          [Event.request (Request.postNewsletter (trim page.newsletterEmail)),
            Event.response (Request.postNewsletter (trim page.newsletterEmail)) true,
            Event.toastSuccess "Successfully subscribed!"] ∧
        (handleNewsletterSubmit st page (Except.ok u)).2.2.newsletterEmail = "") ∧
      (∀ e, e.status = some 400 →
        eventsSince st (handleNewsletterSubmit st page (Except.error e)).2.1 =
          [Event.request (Request.postNewsletter (trim page.newsletterEmail)),
            Event.response (Request.postNewsletter (trim page.newsletterEmail)) false,
            Event.toastError "Already subscribed"] ∧
        (handleNewsletterSubmit st page (Except.error e)).2.2.newsletterEmail =
          page.newsletterEmail) ∧
      (∀ e, e.status ≠ some 400 →
        eventsSince st (handleNewsletterSubmit st page (Except.error e)).2.1 =
          [Event.request (Request.postNewsletter (trim page.newsletterEmail)),
            Event.response (Request.postNewsletter (trim page.newsletterEmail)) false,
            Event.toastError "Subscription failed"] ∧
        (handleNewsletterSubmit st page (Except.error e)).2.2.newsletterEmail =
          page.newsletterEmail)) ∧
    (∀ response, (handleNewsletterSubmit st page response).1 = Except.ok ()) := by
  refine ⟨trim_of_all_white _, fun h response => ?_, fun h => ⟨fun u => ?_, fun e he => ?_,
    fun e he => ?_⟩, fun response => ?_⟩
  · simp [handleNewsletterSubmit, h]
  · simp [handleNewsletterSubmit, h, eventsSince, AppState.awaitRequest, AppState.emit, succeeded]
  · simp [handleNewsletterSubmit, h, he, eventsSince, AppState.awaitRequest, AppState.emit,
      succeeded]
  · simp [handleNewsletterSubmit, h, he, eventsSince, AppState.awaitRequest, AppState.emit,
      succeeded]
  · unfold handleNewsletterSubmit
    split
    · rfl
    · cases response with
      | ok u => rfl
      | error e =>
        dsimp only
        split <;> rfl

/-- C23 at the emails ` ` (a blank) and ` a@b.c ` and a server that answers
with status 400: for the blank nothing is sent, for the other the trimmed
email is posted and `Already subscribed` is shown. -/
theorem handleNewsletterSubmit_messages_witness :
    handleNewsletterSubmit AppState.initial { newsletterEmail := " ", isSubscribing := false }
        (Except.error { status := some 400 }) =
      (Except.ok (), AppState.initial, { newsletterEmail := " ", isSubscribing := false }) ∧
    eventsSince AppState.initial
        (handleNewsletterSubmit AppState.initial
          { newsletterEmail := " a@b.c ", isSubscribing := false }
          (Except.error { status := some 400 })).2.1 =
      [Event.request (Request.postNewsletter "a@b.c"),
        Event.response (Request.postNewsletter "a@b.c") false,
        Event.toastError "Already subscribed"] := by
  have h1 : trim " " = "" := by decide
  have h2 : trim " a@b.c " = "a@b.c" := by decide
  refine ⟨(handleNewsletterSubmit_messages AppState.initial
      { newsletterEmail := " ", isSubscribing := false }).2.1 h1 _, ?_⟩
  have h := ((handleNewsletterSubmit_messages AppState.initial
      { newsletterEmail := " a@b.c ", isSubscribing := false }).2.2.1
      (by rw [h2]; decide)).2.1 { status := some 400 } rfl
  rw [h.1]
  simp only [h2]

/-! ## Default ordering, the two cart sums, tighter criteria -/

/-- C24: featured is the default ordering: for every sort key that is not
price-low, price-high, rating or newest, unknown strings included, the output
of `applyFilters` is the output for the sort key featured. -/
theorem applyFilters_default_featured (products : List Product) (filters : Filters)
    (sortBy : String) (h1 : sortBy ≠ "price-low") (h2 : sortBy ≠ "price-high")
    (h3 : sortBy ≠ "rating") (h4 : sortBy ≠ "newest") :
    applyFilters products filters sortBy = applyFilters products filters "featured" ∧
    applyFilters products filters sortBy = sort featuredCompare (filterProducts products filters) := by
  have h : sortProducts (filterProducts products filters) sortBy =
      sort featuredCompare (filterProducts products filters) := by
    unfold sortProducts
    split <;> first | rfl | contradiction
  exact ⟨h, h⟩

/-- C24 at the sort key `popularity`, which is none of the five. -/
theorem applyFilters_default_featured_witness :
    applyFilters [sampleProduct "A" true 4, sampleProduct "B" false 5] noFilters "popularity" =
      applyFilters [sampleProduct "A" true 4, sampleProduct "B" false 5] noFilters "featured" :=
  (applyFilters_default_featured [sampleProduct "A" true 4, sampleProduct "B" false 5] noFilters
    "popularity" (by decide) (by decide) (by decide) (by decide)).1

theorem foldl_lineAmount (cartItems : List CartItem) (products : List Product) (init : ℚ) :
    cartItems.foldl
      (fun sum item =>
        sum + (match findProduct products item.product_id with
          | some product => product.price * item.quantity
          | none => 0))
      init = init + (cartItems.map (lineAmount products)).sum := by
  induction cartItems generalizing init with
  | nil => simp
  | cons item rest ih =>
    rw [List.foldl_cons, ih, List.map_cons, List.sum_cons, add_assoc]
    rfl

/-- C25: the two cart sums agree: the `total` of the cart context, which
adds 0 for an item whose product is not found, equals the subtotal of
`CartPage`, which drops such items before it sums. -/
theorem cartValue_total_eq_subtotal (cartItems : List CartItem) (products : List Product) :
    subtotal cartItems products = Except.ok (cartValue cartItems products).total ∧
    (cartValue cartItems products).total =
      ((cartItems.filter (resolves products)).map (lineAmount products)).sum := by
  have h : (cartValue cartItems products).total = (cartItems.map (lineAmount products)).sum := by
    unfold cartValue
    dsimp only
    rw [foldl_lineAmount, zero_add]
  rw [h, subtotal_eq, sum_lineAmount_filter]
  exact ⟨rfl, rfl⟩

theorem parseFloat_empty : parseFloat "" = JSNumber.nan := by
  simp [parseFloat, unsignedLiteral]

theorem ne_empty_of_parseFloat_fin (s : String) (q : ℚ) (h : parseFloat s = JSNumber.fin q) :
    s ≠ "" := by
  intro hs
  rw [hs, parseFloat_empty] at h
  exact absurd h (by simp)

theorem matchesCriteria_iff (filters : Filters) (p : Product) :
    matchesCriteria filters p = true ↔
      (filters.search ≠ "" → searchMatches filters.search p = true) ∧
      (filters.category ≠ "" → p.category = filters.category) ∧
      (filters.skinType ≠ "" → filters.skinType ∈ p.skin_types) ∧
      (filters.minPrice ≠ "" → JSNumber.geOf p.price (parseFloat filters.minPrice) = true) ∧
      (filters.maxPrice ≠ "" → JSNumber.leOf p.price (parseFloat filters.maxPrice) = true) := by
  unfold matchesCriteria
  simp only [Bool.and_eq_true, Bool.or_eq_true, beq_iff_eq, List.contains_eq_any_beq,
    List.any_eq_true, and_assoc, ne_eq]
  constructor
  · rintro ⟨h1, h2, h3, h4, h5⟩
    refine ⟨fun h => h1.resolve_left h, fun h => h2.resolve_left h, fun h => ?_,
      fun h => h4.resolve_left h, fun h => h5.resolve_left h⟩
    obtain ⟨x, hx, hxe⟩ := h3.resolve_left h
    rw [hxe]
    exact hx
  · rintro ⟨h1, h2, h3, h4, h5⟩
    refine ⟨?_, ?_, ?_, ?_, ?_⟩
    · by_cases h : filters.search = ""
      · exact Or.inl h
      · exact Or.inr (h1 h)
    · by_cases h : filters.category = ""
      · exact Or.inl h
      · exact Or.inr (h2 h)
    · by_cases h : filters.skinType = ""
      · exact Or.inl h
      · exact Or.inr ⟨filters.skinType, h3 h, rfl⟩
    · by_cases h : filters.minPrice = ""
      · exact Or.inl h
      · exact Or.inr (h4 h)
    · by_cases h : filters.maxPrice = ""
      · exact Or.inl h
      · exact Or.inr (h5 h)

theorem matchesCriteria_of_tightens (filters tighter : Filters) (h : Tightens filters tighter)
    (p : Product) (hp : matchesCriteria tighter p = true) : matchesCriteria filters p = true := by
  rw [matchesCriteria_iff] at hp ⊢
  obtain ⟨hs, hc, hk, hlo, hhi⟩ := h
  obtain ⟨p1, p2, p3, p4, p5⟩ := hp
  refine ⟨fun hne => ?_, fun hne => ?_, fun hne => ?_, fun hne => ?_, fun hne => ?_⟩
  · have heq := hs.resolve_left hne
    rw [heq] at p1
    exact p1 hne
  · have heq := hc.resolve_left hne
    rw [heq] at p2
    exact p2 hne
  · have heq := hk.resolve_left hne
    rw [heq] at p3
    exact p3 hne
  · rcases hlo.resolve_left hne with heq | ⟨lo, lo', h1, h2, hle⟩
    · rw [heq] at p4
      exact p4 hne
    · have h4 := p4 (ne_empty_of_parseFloat_fin _ _ h2)
      rw [h2] at h4
      rw [h1]
      simp only [JSNumber.geOf, decide_eq_true_eq] at h4 ⊢
      exact le_trans hle h4
  · rcases hhi.resolve_left hne with heq | ⟨hi, hi', h1, h2, hle⟩
    · rw [heq] at p5
      exact p5 hne
    · have h5 := p5 (ne_empty_of_parseFloat_fin _ _ h2)
      rw [h2] at h5
      rw [h1]
      simp only [JSNumber.leOf, decide_eq_true_eq] at h5 ⊢
      exact le_trans h5 hle

theorem length_applyFilters (products : List Product) (filters : Filters) (sortBy : String) :
    (applyFilters products filters sortBy).length =
      (products.filter (matchesCriteria filters)).length := by
  have hperm : (applyFilters products filters sortBy).Perm
      (products.filter (matchesCriteria filters)) := by
    unfold applyFilters
    rw [← filterProducts_eq_filter]
    exact sortProducts_perm _ _
  exact hperm.length_eq

/-- C26: filtering is monotone in the criteria: when the criteria `tighter`
come from `filters` by filling in empty criteria, raising a parseable lower
price bound or lowering a parseable upper price bound, every product of the
output for `tighter` is in the output for `filters`, as often at least, and
the output for `tighter` is not longer. -/
theorem applyFilters_monotone (products : List Product) (filters tighter : Filters)
    (sortBy : String) (h : Tightens filters tighter) :
    (∀ p, p ∈ applyFilters products tighter sortBy → p ∈ applyFilters products filters sortBy) ∧
    (applyFilters products tighter sortBy).length ≤
      (applyFilters products filters sortBy).length ∧
    (products.filter (matchesCriteria tighter)).Sublist
      (products.filter (matchesCriteria filters)) := by
  have hsub : (products.filter (matchesCriteria tighter)).Sublist
      (products.filter (matchesCriteria filters)) :=
    List.monotone_filter_right products (fun p hp => matchesCriteria_of_tightens filters tighter h p hp)
  refine ⟨fun p hp => ?_, ?_, hsub⟩
  · rw [mem_applyFilters] at hp ⊢
    exact ⟨hp.1, matchesCriteria_of_tightens filters tighter h p hp.2⟩
  · rw [length_applyFilters, length_applyFilters]
    exact hsub.length_le

/-- C26 at the criteria with nothing set and the criteria of the price
scenario, which fill in the category and both price bounds. -/
theorem applyFilters_monotone_witness :
    Tightens noFilters lipsFilters ∧
    (applyFilters [pricedProduct "a" "lips" 5, pricedProduct "c" "eyes" 10] lipsFilters
        "price-low").length ≤
      (applyFilters [pricedProduct "a" "lips" 5, pricedProduct "c" "eyes" 10] noFilters
        "price-low").length :=
  have h : Tightens noFilters lipsFilters :=
    ⟨Or.inl rfl, Or.inl rfl, Or.inl rfl, Or.inl rfl, Or.inl rfl⟩
  ⟨h, (applyFilters_monotone [pricedProduct "a" "lips" 5, pricedProduct "c" "eyes" 10]
    noFilters lipsFilters "price-low" h).2.1⟩

/-! ## Discount badge and related products -/

/-- C27: the discount badge never divides by zero and stays in range.  A
percentage is shown only for an original price that is present and not 0,
and it is then the rounded quotient; for an original price above a price
that is not negative the percentage is an integer from 0 to 100.  For the
price 20 and the original price 25 it is 20. -/
theorem discountBadge_range (product : Product) :
    (∀ n, discountBadge product = some n →
      ∃ original_price, product.original_price = some original_price ∧ original_price ≠ 0 ∧
        n = mathRound ((original_price - product.price) / original_price * 100)) ∧
    (product.original_price = none ∨ product.original_price = some 0 →
      discountBadge product = none) ∧
    (∀ original_price, product.original_price = some original_price →
      product.price < original_price → 0 ≤ product.price →
      ∃ n, discountBadge product = some n ∧ 0 ≤ n ∧ n ≤ 100) ∧
    discountBadge scenarioP1 = some 20 := by
  refine ⟨fun n hn => ?_, fun h => ?_, fun op hop hlt hge => ?_, ?_⟩
  · unfold discountBadge at hn
    cases hop : product.original_price with
    | none => simp [hop] at hn
    | some op =>
      rw [hop] at hn
      by_cases h0 : op = 0
      · simp [h0] at hn
      · simp only [h0, if_false, Option.some.injEq] at hn
        exact ⟨op, rfl, h0, hn.symm⟩
  · unfold discountBadge
    rcases h with h | h <;> simp [h]
  · have hpos : 0 < op := lt_of_le_of_lt hge hlt
    have h0 : op ≠ 0 := ne_of_gt hpos
    have hx0 : 0 ≤ (op - product.price) / op * 100 := by
      apply mul_nonneg
      · exact div_nonneg (by linarith) (le_of_lt hpos)
      · norm_num
    have hx1 : (op - product.price) / op * 100 ≤ 100 := by
      have : (op - product.price) / op ≤ 1 := by
        rw [div_le_one hpos]
        linarith
      linarith
    refine ⟨mathRound ((op - product.price) / op * 100), ?_, ?_, ?_⟩
    · simp [discountBadge, hop, h0]
    · unfold mathRound
      apply Int.floor_nonneg.mpr
      linarith
    · unfold mathRound
      have hlt101 : Int.floor ((op - product.price) / op * 100 + 1 / 2) < 101 := by
        rw [Int.floor_lt]
        push_cast
        linarith
      omega
  · have hval : mathRound 20 = 20 := by
      unfold mathRound
      rw [Int.floor_eq_iff]
      constructor <;> norm_num
    simp only [discountBadge, scenarioP1]
    norm_num
    exact hval

/-- C28: for a product found by its id, `relatedProducts` has at most 4
elements, each of the category of the shown product and of another id, and
they are the first such products of the list, in the order of the list. -/
theorem relatedProducts_first_four (products : List Product) (id : String) (product : Product)
    (h : findProduct products id = some product) :
    (relatedProducts products product).length ≤ 4 ∧
    (∀ r ∈ relatedProducts products product,
      r ∈ products ∧ r.category = product.category ∧ r.id ≠ product.id) ∧
    relatedProducts products product <+:
      products.filter (fun p => p.category == product.category && p.id != product.id) ∧
    (relatedProducts products product).Sublist products ∧
    (relatedProducts products product).length =
      min 4 (products.filter
        (fun p => p.category == product.category && p.id != product.id)).length ∧
    product ∈ products ∧ product.id = id := by
  obtain ⟨before, after, hsplit, hid, _⟩ := findProduct_first products id product h
  refine ⟨List.length_take_le 4 _, fun r hr => ?_, List.take_prefix 4 _,
    (List.take_sublist 4 _).trans (List.filter_sublist products), List.length_take 4 _, ?_, hid⟩
  · have hmem := List.mem_of_mem_take hr
    rw [List.mem_filter] at hmem
    simp only [Bool.and_eq_true, beq_iff_eq, bne_iff_ne, ne_eq] at hmem
    exact ⟨hmem.1, hmem.2.1, hmem.2.2⟩
  · rw [hsplit]
    simp

/-- C28 at a catalogue of six lips products and one eyes product, with the
first lips product shown: the related products are the next four lips
products. -/
theorem relatedProducts_first_four_witness :
    findProduct
        [pricedProduct "a" "lips" 5, pricedProduct "b" "lips" 6, pricedProduct "c" "eyes" 7,
          pricedProduct "d" "lips" 8, pricedProduct "e" "lips" 9, pricedProduct "f" "lips" 10,
          pricedProduct "g" "lips" 11] "a" = some (pricedProduct "a" "lips" 5) ∧
    (relatedProducts
        [pricedProduct "a" "lips" 5, pricedProduct "b" "lips" 6, pricedProduct "c" "eyes" 7,
          pricedProduct "d" "lips" 8, pricedProduct "e" "lips" 9, pricedProduct "f" "lips" 10,
          pricedProduct "g" "lips" 11] (pricedProduct "a" "lips" 5)).length ≤ 4 ∧
    relatedProducts
        [pricedProduct "a" "lips" 5, pricedProduct "b" "lips" 6, pricedProduct "c" "eyes" 7,
          pricedProduct "d" "lips" 8, pricedProduct "e" "lips" 9, pricedProduct "f" "lips" 10,
          pricedProduct "g" "lips" 11] (pricedProduct "a" "lips" 5) =
      [pricedProduct "b" "lips" 6, pricedProduct "d" "lips" 8, pricedProduct "e" "lips" 9,
        pricedProduct "f" "lips" 10] := by
  have hfind : findProduct
      [pricedProduct "a" "lips" 5, pricedProduct "b" "lips" 6, pricedProduct "c" "eyes" 7,
        pricedProduct "d" "lips" 8, pricedProduct "e" "lips" 9, pricedProduct "f" "lips" 10,
        pricedProduct "g" "lips" 11] "a" = some (pricedProduct "a" "lips" 5) := by
    simp [findProduct, pricedProduct]
  refine ⟨hfind, (relatedProducts_first_four _ "a" _ hfind).1, ?_⟩
  simp [relatedProducts, pricedProduct, List.filter_cons]

end Storefront
